import Mathlib

/-!
# Conversation engine of the menu bot (`src/index.js`)

A shallow embedding of the text handler of the bot: the per-user state record, the
store keyed by user id, the completion client, and the body of
`bot.on(message('text'), ...)` as a function from a state and an inbound message to
the next state, the replies sent and the completion requests made.
-/

namespace Lab3Web

/-! ## Strings -/

/-- White space and line terminators removed by `String.prototype.trim`. -/
def isJsWhiteSpace (c : Char) : Bool :=
  c.toNat = 0x09 || c.toNat = 0x0A || c.toNat = 0x0B || c.toNat = 0x0C || c.toNat = 0x0D ||
  c.toNat = 0x20 || c.toNat = 0xA0 || c.toNat = 0x1680 ||
  (0x2000 ≤ c.toNat && c.toNat ≤ 0x200A) ||
  c.toNat = 0x2028 || c.toNat = 0x2029 || c.toNat = 0x202F || c.toNat = 0x205F ||
  c.toNat = 0x3000 || c.toNat = 0xFEFF

/-- The method `trim()` of a string: white space dropped at both ends. -/
def jsTrim (s : String) : String :=
  String.mk ((s.data.dropWhile isJsWhiteSpace).reverse.dropWhile isJsWhiteSpace).reverse

/-- Truthiness of a value that is a string, `undefined` or `null`. -/
def truthy (v : Option String) : Bool :=
  match v with
  | some s => decide (s ≠ "")
  | none => false

/-- A text occurs inside another one. -/
def Contains (whole part : String) : Prop :=
  ∃ before after : String, whole = before ++ part ++ after

/-! ## Data model -/

/-- The values taken by `state.mode` (line 21). -/
inductive Mode where
  | default
  | collect_student
  | collect_it
  | collect_contacts
  | chatgpt
  deriving DecidableEq, Repr

/-- The record `{ surname, group }`. -/
structure Student where
  surname : String
  group : String
  deriving DecidableEq, Repr

/-- The record `{ technologies }`. -/
structure It where
  technologies : String
  deriving DecidableEq, Repr

/-- The record `{ phone, email }`. -/
structure Contacts where
  phone : String
  email : String
  deriving DecidableEq, Repr

/-- The `role` of a chat message. -/
inductive Role where
  | user
  | assistant
  | system
  deriving DecidableEq, Repr

/-- One entry `{ role, content }` of a chat history or of a completion request. -/
structure ChatMessage where
  role : Role
  content : String
  deriving DecidableEq, Repr

/-- The per-user state object created at lines 20-27; `none` stands for `null`. -/
structure UserState where
  mode : Mode
  step : Nat
  student : Option Student
  it : Option It
  contacts : Option Contacts
  chatHistory : List ChatMessage
  deriving DecidableEq, Repr

/-- The object literal of lines 20-27. -/
def freshState : UserState :=
  { mode := Mode.default, step := 0, student := none, it := none, contacts := none,
    chatHistory := [] }

/-! ## The store `userIdToState` -/

/-- The map `userIdToState`: at most one state object per user id. -/
abbrev Store := Nat → Option UserState

/-- The empty map of line 15. -/
def userIdToState : Store := fun _ => none

/-- The call `userIdToState.set(userId, state)`. -/
def Store.set (m : Store) (userId : Nat) (state : UserState) : Store :=
  fun k => if k = userId then some state else m k

/-- Lines 17-31: the state found under `userId`, or a new one that is stored first.
Returns the state and the store after the call. -/
def getOrCreateUserState (m : Store) (userId : Nat) : UserState × Store :=
  match m userId with
  | some state => (state, m)
  | none => (freshState, m.set userId freshState)

/-! ## Labels, keyboards and replies -/

def LABEL_STUDENT : String := "Студент"
def LABEL_IT : String := "IT-технології"
def LABEL_CONTACTS : String := "Контакти"
def LABEL_GPT : String := "Prompt ChatGPT"
def LABEL_BACK : String := "🔙 До меню"

/-- The two reply keyboards (lines 39-44). -/
inductive Keyboard where
  | mainMenu
  | backOnlyMenu
  deriving DecidableEq, Repr

/-- One call `ctx.reply(text, extra)`; `keyboard = none` when no keyboard is passed. -/
structure Reply where
  text : String
  keyboard : Option Keyboard
  deriving DecidableEq, Repr

/-- Lines 46-48; `text = none` when the argument is left out, which selects the default
text of the parameter. -/
def showMainMenu (text : Option String) : Reply :=
  { text := text.getD "Оберіть пункт меню:", keyboard := some Keyboard.mainMenu }

/-- Lines 50-52. -/
def formatStudentData (student : Student) : String :=
  "Ваші дані студента:\n- Прізвище: " ++ student.surname ++ "\n- Група: " ++ student.group

/-- Lines 54-56. -/
def formatItData (it : It) : String :=
  "Ваші IT-технології:\n" ++ it.technologies

/-- Lines 58-60. -/
def formatContactsData (contacts : Contacts) : String :=
  "Ваші контакти:\n- Телефон: " ++ contacts.phone ++ "\n- E-mail: " ++ contacts.email

/-! ## The completion client -/

/-- The two environment variables read at lines 5-6; `none` when a variable is unset. -/
structure Env where
  OPENROUTER_API_KEY : Option String
  OPENROUTER_MODEL : Option String

/-- The client object built at lines 8-11. -/
structure OpenAI where
  baseURL : String
  apiKey : String
  deriving DecidableEq, Repr

/-- Lines 7-12: a client when the key is set and non-empty, `null` otherwise. -/
def openai (env : Env) : Option OpenAI :=
  match env.OPENROUTER_API_KEY with
  | some key => if key ≠ "" then some { baseURL := "https://openrouter.ai/api/v1", apiKey := key } else none
  | none => none

/-- Line 6. -/
def OPENROUTER_MODEL (env : Env) : String :=
  match env.OPENROUTER_MODEL with
  | some m => if m ≠ "" then m else "gpt-4o-mini"
  | none => "gpt-4o-mini"

/-- The argument of `chat.completions.create`. -/
structure CompletionRequest where
  model : String
  messages : List ChatMessage
  deriving DecidableEq, Repr

/-- The `message` of a completion choice; `content` may be missing or `null`. -/
structure ChoiceMessage where
  content : Option String
  deriving DecidableEq, Repr

/-- One completion choice; `message` may be missing. -/
structure Choice where
  message : Option ChoiceMessage
  deriving DecidableEq, Repr

/-- The completion object; `choices` may be missing. -/
structure Completion where
  choices : Option (List Choice)
  deriving DecidableEq, Repr

/-- A thrown value as the `catch` of lines 215-220 sees it: its `message`, `none` when the
value is falsy or has none. -/
structure Thrown where
  message : Option String
  deriving DecidableEq, Repr

/-- How the awaited remote call settles. -/
inductive RemoteResult where
  | resolved (completion : Completion)
  | rejected (err : Thrown)
  deriving DecidableEq, Repr

/-- The remote service behind `client.chat.completions.create`. -/
abbrev Remote := OpenAI → CompletionRequest → RemoteResult

/-- The error of line 64. -/
def notConfigured : Thrown :=
  { message := some "OPENAI_API_KEY не налаштований. Додайте ключ у файл .env" }

/-- Line 70: `completion.choices?.[0]?.message?.content`. -/
def firstContent (completion : Completion) : Option String :=
  ((completion.choices.bind fun cs => cs.head?).bind fun c => c.message).bind fun m => m.content

/-- Line 71: `(content || '').trim() || 'Немає відповіді.'`. -/
def answerOf (content : Option String) : String :=
  let trimmed := jsTrim (if truthy content then content.getD "" else "")
  if trimmed ≠ "" then trimmed else "Немає відповіді."

/-- Lines 62-72. -/
def callOpenAIChat (env : Env) (remote : Remote) (messages : List ChatMessage) :
    Except Thrown String :=
  match openai env with
  | none => Except.error notConfigured
  | some client =>
    match remote client { model := OPENROUTER_MODEL env, messages := messages } with
    | RemoteResult.rejected err => Except.error err
    | RemoteResult.resolved completion => Except.ok (answerOf (firstContent completion))

/-! ## The text handler -/

/-- The method `slice(start)` of an array, for any integer `start`. -/
def jsSlice {α : Type} (xs : List α) (start : Int) : List α :=
  let len : Int := xs.length
  let k : Int := if start < 0 then max (len + start) 0 else min start len
  xs.drop k.toNat

/-- The system message of line 207. -/
def systemMessage : ChatMessage :=
  { role := Role.system, content := "Ти корисний україномовний асистент." }

/-- Lines 216-219: the text shown for a caught error. -/
def errorText (err : Thrown) : String :=
  if truthy err.message then err.message.getD "" else "Сталася помилка при зверненні до ChatGPT."

/-- What one run of the handler does: the state object afterwards, the replies sent in
order, the message lists passed to `callOpenAIChat` in order, and whether the run ended
by an uncaught `TypeError` (a property written on `null`). -/
structure Handled where
  state : UserState
  replies : List Reply
  requests : List (List ChatMessage)
  threw : Bool
  deriving DecidableEq, Repr

/-- Lines 92-229: the body of the handler of `message('text')` once the state object is
at hand. `messageText` is `ctx.message.text`. -/
def handleText (env : Env) (remote : Remote) (state : UserState) (messageText : String) :
    Handled :=
  let text := jsTrim messageText
  -- Global navigation
  if text = LABEL_BACK then
    let state := if state.mode = Mode.chatgpt then { state with chatHistory := [] } else state
    let state := { state with mode := Mode.default, step := 0 }
    { state := state, replies := [showMainMenu none], requests := [], threw := false }
  -- Top-level menu selections
  else if text = LABEL_STUDENT then
    let state := if state.mode = Mode.chatgpt then { state with chatHistory := [] } else state
    match state.student with
    | some student =>
      { state := state,
        replies := [{ text := formatStudentData student, keyboard := some Keyboard.mainMenu }],
        requests := [], threw := false }
    | none =>
      { state := { state with mode := Mode.collect_student, step := 0 },
        replies := [{ text := "Введіть, будь ласка, ваше прізвище:",
                      keyboard := some Keyboard.backOnlyMenu }],
        requests := [], threw := false }
  else if text = LABEL_IT then
    let state := if state.mode = Mode.chatgpt then { state with chatHistory := [] } else state
    match state.it with
    | some it =>
      { state := state,
        replies := [{ text := formatItData it, keyboard := some Keyboard.mainMenu }],
        requests := [], threw := false }
    | none =>
      { state := { state with mode := Mode.collect_it, step := 0 },
        replies := [{ text := "Вкажіть ваші IT-технології (через кому або довільний текст):",
                      keyboard := some Keyboard.backOnlyMenu }],
        requests := [], threw := false }
  else if text = LABEL_CONTACTS then
    let state := if state.mode = Mode.chatgpt then { state with chatHistory := [] } else state
    match state.contacts with
    | some contacts =>
      { state := state,
        replies := [{ text := formatContactsData contacts, keyboard := some Keyboard.mainMenu }],
        requests := [], threw := false }
    | none =>
      { state := { state with mode := Mode.collect_contacts, step := 0 },
        replies := [{ text := "Введіть номер телефону:", keyboard := some Keyboard.backOnlyMenu }],
        requests := [], threw := false }
  else if text = LABEL_GPT then
    let state := { state with chatHistory := [], mode := Mode.chatgpt, step := 0 }
    if (openai env).isNone then
      { state := state,
        replies := [{ text := "Режим ChatGPT: не вказано OPENAI_API_KEY у .env. Додайте ключ і перезапустіть бота.",
                      keyboard := some Keyboard.backOnlyMenu }],
        requests := [], threw := false }
    else
      { state := state,
        replies := [{ text := "Режим ChatGPT активовано. Напишіть ваш запит або натисніть «🔙 До меню».",
                      keyboard := some Keyboard.backOnlyMenu }],
        requests := [], threw := false }
  -- Mode-specific handling
  else if state.mode = Mode.collect_student ∧ state.step = 0 then
    { state := { state with student := some { surname := text, group := "" }, step := 1 },
      replies := [{ text := "Введіть назву вашої групи:", keyboard := some Keyboard.backOnlyMenu }],
      requests := [], threw := false }
  else if state.mode = Mode.collect_student ∧ state.step = 1 then
    match state.student with
    | none => { state := state, replies := [], requests := [], threw := true }
    | some student =>
      let student := { student with group := text }
      { state := { state with student := some student, mode := Mode.default, step := 0 },
        replies := [{ text := "Дякую! Зберіг дані студента.", keyboard := none },
                    showMainMenu (some (formatStudentData student))],
        requests := [], threw := false }
  else if state.mode = Mode.collect_it then
    let it : It := { technologies := text }
    { state := { state with it := some it, mode := Mode.default, step := 0 },
      replies := [{ text := "Дякую! Зберіг ваші IT-технології.", keyboard := none },
                  showMainMenu (some (formatItData it))],
      requests := [], threw := false }
  else if state.mode = Mode.collect_contacts ∧ state.step = 0 then
    { state := { state with contacts := some { phone := text, email := "" }, step := 1 },
      replies := [{ text := "Введіть ваш e-mail:", keyboard := some Keyboard.backOnlyMenu }],
      requests := [], threw := false }
  else if state.mode = Mode.collect_contacts ∧ state.step = 1 then
    match state.contacts with
    | none => { state := state, replies := [], requests := [], threw := true }
    | some contacts =>
      let contacts := { contacts with email := text }
      { state := { state with contacts := some contacts, mode := Mode.default, step := 0 },
        replies := [{ text := "Дякую! Зберіг ваші контакти.", keyboard := none },
                    showMainMenu (some (formatContactsData contacts))],
        requests := [], threw := false }
  else if state.mode = Mode.chatgpt then
    let limitedHistory := jsSlice state.chatHistory (-10)
    let messages := [systemMessage] ++ limitedHistory ++ [{ role := Role.user, content := text }]
    match callOpenAIChat env remote messages with
    | Except.ok answer =>
      let history := state.chatHistory ++ [{ role := Role.user, content := text }]
      let history := history ++ [{ role := Role.assistant, content := answer }]
      { state := { state with chatHistory := history },
        replies := [{ text := answer, keyboard := some Keyboard.backOnlyMenu }],
        requests := [messages], threw := false }
    | Except.error err =>
      { state := state,
        replies := [{ text := "Помилка: " ++ errorText err, keyboard := some Keyboard.backOnlyMenu }],
        requests := [messages], threw := false }
  -- Default fallback when not in any specific mode
  else
    { state := state,
      replies := [showMainMenu (some "Будь ласка, оберіть пункт меню на клавіатурі нижче.")],
      requests := [], threw := false }

/-- Lines 89-229: the handler with its state lookup. The state object is shared with the
map, so what the body writes to it is what the map holds afterwards. -/
def onText (env : Env) (remote : Remote) (m : Store) (userId : Nat) (messageText : String) :
    Handled × Store :=
  let (state, m) := getOrCreateUserState m userId
  let handled := handleText env remote state messageText
  (handled, m.set userId handled.state)

/-- The five keyboard labels. -/
def isLabel (text : String) : Prop :=
  text = LABEL_BACK ∨ text = LABEL_STUDENT ∨ text = LABEL_IT ∨ text = LABEL_CONTACTS ∨
    text = LABEL_GPT

instance (text : String) : Decidable (isLabel text) := by
  unfold isLabel; infer_instance

/-- The state after a sequence of inbound texts, each with the environment and the
remote behaviour in force when it is handled. -/
def runTexts (state : UserState) : List (Env × Remote × String) → UserState
  | [] => state
  | (env, remote, messageText) :: rest =>
    runTexts (handleText env remote state messageText).state rest

/-! ## Suspended runs

A run of the handler is not atomic: the chat branch suspends at `await callOpenAIChat`
(line 211) and other runs for the same user may be handled before it resumes at lines
212-221, where it appends to `state.chatHistory` as it is then. Every other branch makes
all its writes to the state before its first `await ctx.reply`, so for the state it is one
step. -/

/-- A run of the chat branch suspended at line 211: the text it was given and how the
awaited call settles. -/
structure Pending where
  text : String
  outcome : Except Thrown String

/-- A run up to the `await` of line 211. A text that reaches the chat branch (no label, mode
`chatgpt`) builds its message list from the history as it is now (lines 205-210), leaves
the state untouched and is left pending; any other run has made all its writes to the
state. -/
def startText (env : Env) (remote : Remote) (state : UserState) (messageText : String) :
    UserState × Option Pending :=
  if state.mode = Mode.chatgpt ∧ ¬ isLabel (jsTrim messageText) then
    (state,
     some { text := jsTrim messageText,
            outcome := callOpenAIChat env remote
              ([systemMessage] ++ jsSlice state.chatHistory (-10)
                ++ [{ role := Role.user, content := jsTrim messageText }]) })
  else
    ((handleText env remote state messageText).state, none)

/-- Lines 212-221: a pending run resumes on the state as it is when the call settles. -/
def finishText (state : UserState) (p : Pending) : Handled :=
  match p.outcome with
  | Except.ok answer =>
    let history := state.chatHistory ++ [{ role := Role.user, content := p.text }]
    let history := history ++ [{ role := Role.assistant, content := answer }]
    { state := { state with chatHistory := history },
      replies := [{ text := answer, keyboard := some Keyboard.backOnlyMenu }],
      requests := [], threw := false }
  | Except.error err =>
    { state := state,
      replies := [{ text := "Помилка: " ++ errorText err, keyboard := some Keyboard.backOnlyMenu }],
      requests := [], threw := false }

/-- The state of a user together with the runs still pending, as reached from a freshly
created state: a new inbound text starts a run, and any pending run may resume, in any
order, whatever the configuration and the remote service answer. -/
inductive ReachableWith : UserState → List Pending → Prop where
  | fresh : ReachableWith freshState []
  | start {state : UserState} {pending : List Pending} (env : Env) (remote : Remote)
      (messageText : String) :
      ReachableWith state pending →
      ReachableWith (startText env remote state messageText).1
        (pending ++ (startText env remote state messageText).2.toList)
  | finish {state : UserState} {pending : List Pending} (before : List Pending) (p : Pending)
      (after : List Pending) :
      ReachableWith state pending → pending = before ++ p :: after →
      ReachableWith (finishText state p).state (before ++ after)

/-- States reached from a freshly created state by handling inbound texts, whatever the
configuration and the remote service answer at each of them, and however the runs of the
handler interleave at the `await` of line 211. -/
def Reachable (state : UserState) : Prop :=
  ∃ pending, ReachableWith state pending

/-! ## Sample configurations -/

/-- An environment without an API key. -/
def envNoKey : Env := { OPENROUTER_API_KEY := none, OPENROUTER_MODEL := none }

/-- An environment with an API key. -/
def envWithKey : Env := { OPENROUTER_API_KEY := some "sk-test", OPENROUTER_MODEL := none }

/-- A remote service that rejects every request. -/
def remoteDown : Remote :=
  fun _ _ => RemoteResult.rejected { message := some "Connection error." }

/-- A remote service that answers every request with the same text. -/
def remoteFixed (answer : String) : Remote :=
  fun _ _ => RemoteResult.resolved { choices := some [{ message := some { content := some answer } }] }

/-- A state in the middle of nothing but the student collection, at its first step. -/
def collectingStudent : UserState := { freshState with mode := Mode.collect_student }

/-- A state in chat mode with one exchange in its history. -/
def chatting : UserState :=
  { freshState with
      mode := Mode.chatgpt,
      chatHistory := [{ role := Role.user, content := "hi" },
                      { role := Role.assistant, content := "hello" }] }

/-- The state after entering chat mode, one answered question and the back label. -/
def chatThenBack : UserState :=
  runTexts freshState
    [(envWithKey, remoteFixed "ok", LABEL_GPT), (envWithKey, remoteFixed "ok", "hello"),
     (envWithKey, remoteFixed "ok", LABEL_BACK)]

/-- The state after entering chat mode and six answered questions. -/
def chatAfterSix : UserState :=
  runTexts freshState
    [(envWithKey, remoteFixed "ok", LABEL_GPT), (envWithKey, remoteFixed "a1", "q1"),
     (envWithKey, remoteFixed "a2", "q2"), (envWithKey, remoteFixed "a3", "q3"),
     (envWithKey, remoteFixed "a4", "q4"), (envWithKey, remoteFixed "a5", "q5"),
     (envWithKey, remoteFixed "a6", "q6")]

/-- A state at the second step of the student collection. -/
def awaitingGroup : UserState :=
  { freshState with
      mode := Mode.collect_student, step := 1,
      student := some { surname := "Shevchenko", group := "" } }

/-- A store that holds one user, in the middle of the student collection. -/
def oneUserStore : Store := userIdToState.set 7 awaitingGroup

/-- A state in the IT collection, with the other two records filled and a step that the
handler never sets in this mode. -/
def collectingIt : UserState :=
  { freshState with
      mode := Mode.collect_it, step := 3,
      student := some { surname := "Shevchenko", group := "CS-101" },
      contacts := some { phone := "+380501234567", email := "t@example.org" } }

/-- A state in the student collection whose step is neither 0 nor 1. -/
def stuckStudent : UserState := { freshState with mode := Mode.collect_student, step := 2 }

/-- A state in the contacts collection whose step is neither 0 nor 1. -/
def stuckContacts : UserState := { freshState with mode := Mode.collect_contacts, step := 5 }

/-- A chat-mode state that already holds a student record. -/
def chattingStudent : UserState :=
  { chatting with student := some { surname := "Shevchenko", group := "CS-101" } }

/-- Lines 62-72 once more, returning next to the result the requests that reach the remote
service, in order: none when the guard of line 63 throws, the one of lines 66-69
otherwise. -/
def callOpenAIChatTraced (env : Env) (remote : Remote) (messages : List ChatMessage) :
    Except Thrown String × List CompletionRequest :=
  match openai env with
  | none => (Except.error notConfigured, [])
  | some client =>
    match remote client { model := OPENROUTER_MODEL env, messages := messages } with
    | RemoteResult.rejected err =>
      (Except.error err, [{ model := OPENROUTER_MODEL env, messages := messages }])
    | RemoteResult.resolved completion =>
      (Except.ok (answerOf (firstContent completion)),
       [{ model := OPENROUTER_MODEL env, messages := messages }])

/-- The fallback answer of line 71. -/
def noAnswer : String := "Немає відповіді."

/-! ## Invariants -/

/-- The step and the records fit the mode: the step is 0 or 1, it is 1 only inside the
student or the contacts collection, where the record then exists with its second field
still the placeholder, and a collection at step 0 has no record yet. -/
def Consistent (s : UserState) : Prop :=
  (s.step = 0 ∨ s.step = 1) ∧
  (s.step = 1 → s.mode = Mode.collect_student ∨ s.mode = Mode.collect_contacts) ∧
  (s.mode = Mode.collect_student → s.step = 1 → s.student.map Student.group = some "") ∧
  (s.mode = Mode.collect_contacts → s.step = 1 → s.contacts.map Contacts.email = some "") ∧
  (s.mode = Mode.collect_student → s.step = 0 → s.student = none) ∧
  (s.mode = Mode.collect_contacts → s.step = 0 → s.contacts = none) ∧
  (s.mode = Mode.collect_it → s.it = none)

/-- A student record stays: same surname, and the group is the old one unless the old one
was the placeholder. -/
def StudentKept (old new : Option Student) : Prop :=
  ∀ a, old = some a →
    ∃ b, new = some b ∧ b.surname = a.surname ∧ (b.group = a.group ∨ a.group = "")

/-- An IT record stays as it is. -/
def ItKept (old new : Option It) : Prop :=
  ∀ a, old = some a → new = some a

/-- A contacts record stays: same phone, and the e-mail is the old one unless the old one
was the placeholder. -/
def ContactsKept (old new : Option Contacts) : Prop :=
  ∀ a, old = some a →
    ∃ b, new = some b ∧ b.phone = a.phone ∧ (b.email = a.email ∨ a.email = "")

/-- The three records of `new` continue those of `old`. -/
def WriteOnce (old new : UserState) : Prop :=
  StudentKept old.student new.student ∧ ItKept old.it new.it ∧
    ContactsKept old.contacts new.contacts

/-- Entries at even indices have role `user`, entries at odd indices role `assistant`. -/
def AlternatingRoles (history : List ChatMessage) : Prop :=
  ∀ i m, history[i]? = some m → m.role = if i % 2 = 0 then Role.user else Role.assistant

/-- The state after the Student label and a surname. -/
def afterSurname : UserState :=
  runTexts freshState
    [(envNoKey, remoteDown, LABEL_STUDENT), (envNoKey, remoteDown, "Ivanov")]

/-- Chat mode just entered, with an API key. -/
def chatEntered : UserState :=
  (startText envWithKey (remoteFixed "a1") freshState LABEL_GPT).1

/-- The run of the question `q1` in chat mode, suspended while the service answers `a1`. -/
def questionPending : Pending := { text := "q1", outcome := Except.ok "a1" }

/-- The back label handled while the question is pending. -/
def backWhilePending : UserState :=
  (startText envWithKey (remoteFixed "a1") chatEntered LABEL_BACK).1

/-- The pending question resumed after the back label. -/
def historyLeaked : UserState := (finishText backWhilePending questionPending).state

/-- The pending question resumed after the back label and a new ChatPrompt label. -/
def staleInNewChat : UserState :=
  (finishText (startText envWithKey (remoteFixed "a1") backWhilePending LABEL_GPT).1
    questionPending).state

/-! ## Basic facts -/

theorem jsTrim_LABEL_BACK : jsTrim LABEL_BACK = LABEL_BACK := by decide

theorem jsTrim_LABEL_STUDENT : jsTrim LABEL_STUDENT = LABEL_STUDENT := by decide

theorem jsTrim_LABEL_IT : jsTrim LABEL_IT = LABEL_IT := by decide

theorem jsTrim_LABEL_CONTACTS : jsTrim LABEL_CONTACTS = LABEL_CONTACTS := by decide

theorem jsTrim_LABEL_GPT : jsTrim LABEL_GPT = LABEL_GPT := by decide

theorem contains_surname (student : Student) :
    Contains (formatStudentData student) student.surname :=
  ⟨"Ваші дані студента:\n- Прізвище: ", "\n- Група: " ++ student.group, by
    simp [formatStudentData, String.append_assoc]⟩

theorem contains_group (student : Student) :
    Contains (formatStudentData student) student.group :=
  ⟨"Ваші дані студента:\n- Прізвище: " ++ student.surname ++ "\n- Група: ", "", by
    simp [formatStudentData]⟩

/-! ## One lemma per branch of the handler -/

theorem handleText_back (env : Env) (remote : Remote) (state : UserState) (raw : String)
    (h : jsTrim raw = LABEL_BACK) :
    handleText env remote state raw =
      { state := { state with
                    chatHistory := if state.mode = Mode.chatgpt then [] else state.chatHistory,
                    mode := Mode.default, step := 0 },
        replies := [showMainMenu none], requests := [], threw := false } := by
  unfold handleText
  simp only [h, if_true]
  split <;> rfl

theorem handleText_student_label (env : Env) (remote : Remote) (state : UserState)
    (raw : String) (h : jsTrim raw = LABEL_STUDENT) :
    handleText env remote state raw =
      match state.student with
      | some student =>
        { state := { state with
                      chatHistory := if state.mode = Mode.chatgpt then [] else state.chatHistory },
          replies := [{ text := formatStudentData student, keyboard := some Keyboard.mainMenu }],
          requests := [], threw := false }
      | none =>
        { state := { state with
                      chatHistory := if state.mode = Mode.chatgpt then [] else state.chatHistory,
                      mode := Mode.collect_student, step := 0 },
          replies := [{ text := "Введіть, будь ласка, ваше прізвище:",
                        keyboard := some Keyboard.backOnlyMenu }],
          requests := [], threw := false } := by
  have hne : LABEL_STUDENT ≠ LABEL_BACK := by decide
  obtain ⟨mode, step, student, it, contacts, chatHistory⟩ := state
  cases student <;> by_cases hm : mode = Mode.chatgpt <;> simp [handleText, h, hne, hm]

theorem handleText_student_step0 (env : Env) (remote : Remote) (state : UserState)
    (raw : String) (hl : ¬ isLabel (jsTrim raw)) (hm : state.mode = Mode.collect_student)
    (hs : state.step = 0) :
    handleText env remote state raw =
      { state := { state with student := some { surname := jsTrim raw, group := "" }, step := 1 },
        replies := [{ text := "Введіть назву вашої групи:",
                      keyboard := some Keyboard.backOnlyMenu }],
        requests := [], threw := false } := by
  simp only [isLabel, not_or] at hl
  obtain ⟨h1, h2, h3, h4, h5⟩ := hl
  unfold handleText
  simp [h1, h2, h3, h4, h5, hm, hs]

theorem handleText_student_step1 (env : Env) (remote : Remote) (state : UserState)
    (raw : String) (student : Student) (hl : ¬ isLabel (jsTrim raw))
    (hm : state.mode = Mode.collect_student) (hs : state.step = 1)
    (hst : state.student = some student) :
    handleText env remote state raw =
      { state := { state with student := some { student with group := jsTrim raw },
                              mode := Mode.default, step := 0 },
        replies := [{ text := "Дякую! Зберіг дані студента.", keyboard := none },
                    showMainMenu (some (formatStudentData { student with group := jsTrim raw }))],
        requests := [], threw := false } := by
  simp only [isLabel, not_or] at hl
  obtain ⟨h1, h2, h3, h4, h5⟩ := hl
  unfold handleText
  simp [h1, h2, h3, h4, h5, hm, hs, hst]

/-- The two steps of the student collection, run one after the other. -/
theorem student_flow (env : Env) (remote : Remote) (state : UserState) (s g : String)
    (hs : ¬ isLabel (jsTrim s)) (hg : ¬ isLabel (jsTrim g))
    (hmode : state.mode = Mode.collect_student) (hstep : state.step = 0) :
    handleText env remote state s =
      { state := { state with student := some { surname := jsTrim s, group := "" }, step := 1 },
        replies := [{ text := "Введіть назву вашої групи:",
                      keyboard := some Keyboard.backOnlyMenu }],
        requests := [], threw := false } ∧
    handleText env remote (handleText env remote state s).state g =
      { state := { state with student := some { surname := jsTrim s, group := jsTrim g },
                              mode := Mode.default, step := 0 },
        replies := [{ text := "Дякую! Зберіг дані студента.", keyboard := none },
                    { text := formatStudentData { surname := jsTrim s, group := jsTrim g },
                      keyboard := some Keyboard.mainMenu }],
        requests := [], threw := false } := by
  have h1 := handleText_student_step0 env remote state s hs hmode hstep
  have h2 := handleText_student_step1 env remote (handleText env remote state s).state g
    { surname := jsTrim s, group := "" } hg (by rw [h1]; exact hmode) (by rw [h1])
    (by rw [h1])
  refine ⟨h1, ?_⟩
  rw [h2, h1]
  rfl

/-! ## C1: the two-step student flow -/

/-- C1, as stated, fails when a text has white space around it: after the surname
`" Shevchenko"` and the group `"CS-101"` (neither trims to a label) the stored record is
`{surname: "Shevchenko", group: "CS-101"}`, not `{surname: " Shevchenko", group: "CS-101"}`,
because the handler stores the trimmed text. -/
theorem C1_counterexample :
    ¬ isLabel (jsTrim " Shevchenko") ∧ ¬ isLabel (jsTrim "CS-101") ∧
    collectingStudent.mode = Mode.collect_student ∧ collectingStudent.step = 0 ∧
    (handleText envNoKey remoteDown
        (handleText envNoKey remoteDown collectingStudent " Shevchenko").state "CS-101").state.student
      = some { surname := "Shevchenko", group := "CS-101" } ∧
    (handleText envNoKey remoteDown
        (handleText envNoKey remoteDown collectingStudent " Shevchenko").state "CS-101").state.student
      ≠ some { surname := " Shevchenko", group := "CS-101" } := by
  decide

/-- C1, amended: for every surname `s` and group `g` whose trimmed text is none of the five
labels, and every state with mode `collect_student` and step 0: handling `s` emits exactly
one reply (the group prompt under BackOnly) and moves to step 1; handling `g` next leaves
`student = {surname: trim s, group: trim g}`, mode `default`, step 0, and emits an
acknowledgement followed by a MainMenu reply whose text is `formatStudentData` of that
record, which contains both trimmed texts. The other fields of the state are untouched. -/
theorem C1_student_flow (env : Env) (remote : Remote) (state : UserState) (s g : String)
    (hs : ¬ isLabel (jsTrim s)) (hg : ¬ isLabel (jsTrim g))
    (hmode : state.mode = Mode.collect_student) (hstep : state.step = 0) :
    (handleText env remote state s).replies
        = [{ text := "Введіть назву вашої групи:", keyboard := some Keyboard.backOnlyMenu }] ∧
    (handleText env remote state s).state.step = 1 ∧
    (handleText env remote state s).state.mode = Mode.collect_student ∧
    (handleText env remote (handleText env remote state s).state g).state
        = { state with student := some { surname := jsTrim s, group := jsTrim g },
                       mode := Mode.default, step := 0 } ∧
    (handleText env remote (handleText env remote state s).state g).replies
        = [{ text := "Дякую! Зберіг дані студента.", keyboard := none },
           { text := formatStudentData { surname := jsTrim s, group := jsTrim g },
             keyboard := some Keyboard.mainMenu }] ∧
    Contains (formatStudentData { surname := jsTrim s, group := jsTrim g }) (jsTrim s) ∧
    Contains (formatStudentData { surname := jsTrim s, group := jsTrim g }) (jsTrim g) := by
  obtain ⟨h1, h2⟩ := student_flow env remote state s g hs hg hmode hstep
  refine ⟨by rw [h1], by rw [h1], by rw [h1]; exact hmode, by rw [h2], by rw [h2], ?_, ?_⟩
  · exact contains_surname { surname := jsTrim s, group := jsTrim g }
  · exact contains_group { surname := jsTrim s, group := jsTrim g }

/-- C1, amended, at the inputs of the specification: `"Shevchenko"` then `"CS-101"`. -/
theorem C1_student_flow_witness :
    (handleText envNoKey remoteDown
        (handleText envNoKey remoteDown collectingStudent "Shevchenko").state "CS-101").state
      = { collectingStudent with
            student := some { surname := jsTrim "Shevchenko", group := jsTrim "CS-101" },
            mode := Mode.default, step := 0 } ∧
    jsTrim "Shevchenko" = "Shevchenko" ∧ jsTrim "CS-101" = "CS-101" :=
  ⟨(C1_student_flow envNoKey remoteDown collectingStudent "Shevchenko" "CS-101"
      (by decide) (by decide) rfl rfl).2.2.2.1, by decide, by decide⟩

/-! ## C2: back navigation -/

/-- C2: for every state, handling the back label yields mode `default` and step 0 and emits
exactly one MainMenu reply; `chatHistory` becomes empty if the mode was `chatgpt` and is
unchanged otherwise; `student`, `it` and `contacts` are unchanged. -/
theorem C2_back_navigation (env : Env) (remote : Remote) (state : UserState) :
    (handleText env remote state LABEL_BACK).state.mode = Mode.default ∧
    (handleText env remote state LABEL_BACK).state.step = 0 ∧
    (handleText env remote state LABEL_BACK).replies
        = [{ text := "Оберіть пункт меню:", keyboard := some Keyboard.mainMenu }] ∧
    (handleText env remote state LABEL_BACK).state.chatHistory
        = (if state.mode = Mode.chatgpt then [] else state.chatHistory) ∧
    (handleText env remote state LABEL_BACK).state.student = state.student ∧
    (handleText env remote state LABEL_BACK).state.it = state.it ∧
    (handleText env remote state LABEL_BACK).state.contacts = state.contacts ∧
    (handleText env remote state LABEL_BACK).requests = [] ∧
    (handleText env remote state LABEL_BACK).threw = false := by
  rw [handleText_back env remote state LABEL_BACK jsTrim_LABEL_BACK]
  exact ⟨rfl, rfl, rfl, rfl, rfl, rfl, rfl, rfl, rfl⟩

/-! ## C3: selecting Student twice -/

/-- C3: from a freshly created state, the Student label sets mode `collect_student`, step 0
and emits one surname prompt under BackOnly; after two messages whose texts `s` and `g`
(the trimmed message texts) are not labels the mode is `default`; and a second Student
label emits exactly one reply, the summary of `{surname: s, group: g}` under MainMenu,
leaving mode `default` and step 0. -/
theorem C3_student_twice (env : Env) (remote : Remote) (raw₁ raw₂ s g : String)
    (hs : jsTrim raw₁ = s) (hg : jsTrim raw₂ = g) (hsl : ¬ isLabel s) (hgl : ¬ isLabel g) :
    (handleText env remote freshState LABEL_STUDENT).state.mode = Mode.collect_student ∧
    (handleText env remote freshState LABEL_STUDENT).state.step = 0 ∧
    (handleText env remote freshState LABEL_STUDENT).replies
        = [{ text := "Введіть, будь ласка, ваше прізвище:",
             keyboard := some Keyboard.backOnlyMenu }] ∧
    (runTexts freshState
        [(env, remote, LABEL_STUDENT), (env, remote, raw₁), (env, remote, raw₂)]).mode
      = Mode.default ∧
    (handleText env remote
        (runTexts freshState
          [(env, remote, LABEL_STUDENT), (env, remote, raw₁), (env, remote, raw₂)])
        LABEL_STUDENT).replies
      = [{ text := formatStudentData { surname := s, group := g },
           keyboard := some Keyboard.mainMenu }] ∧
    (handleText env remote
        (runTexts freshState
          [(env, remote, LABEL_STUDENT), (env, remote, raw₁), (env, remote, raw₂)])
        LABEL_STUDENT).state
      = { freshState with student := some { surname := s, group := g } } := by
  subst hs hg
  have h0 : handleText env remote freshState LABEL_STUDENT =
      { state := collectingStudent,
        replies := [{ text := "Введіть, будь ласка, ваше прізвище:",
                      keyboard := some Keyboard.backOnlyMenu }],
        requests := [], threw := false } := by
    rw [handleText_student_label env remote freshState LABEL_STUDENT jsTrim_LABEL_STUDENT]
    rfl
  have h12 := student_flow env remote collectingStudent raw₁ raw₂ hsl hgl rfl rfl
  have hrun : runTexts freshState
      [(env, remote, LABEL_STUDENT), (env, remote, raw₁), (env, remote, raw₂)]
      = { freshState with student := some { surname := jsTrim raw₁, group := jsTrim raw₂ } } := by
    simp only [runTexts, h0, h12.2]
    rfl
  rw [hrun, h0]
  refine ⟨rfl, rfl, rfl, rfl, ?_, ?_⟩
  · rw [handleText_student_label env remote _ LABEL_STUDENT jsTrim_LABEL_STUDENT]
  · rw [handleText_student_label env remote _ LABEL_STUDENT jsTrim_LABEL_STUDENT]
    rfl

/-- C3 at the texts `"Shevchenko"` and `"CS-101"`. -/
theorem C3_student_twice_witness :
    (handleText envNoKey remoteDown
        (runTexts freshState
          [(envNoKey, remoteDown, LABEL_STUDENT), (envNoKey, remoteDown, "Shevchenko"),
           (envNoKey, remoteDown, "CS-101")])
        LABEL_STUDENT).replies
      = [{ text := formatStudentData { surname := "Shevchenko", group := "CS-101" },
           keyboard := some Keyboard.mainMenu }] :=
  (C3_student_twice envNoKey remoteDown "Shevchenko" "CS-101" "Shevchenko" "CS-101"
    (by decide) (by decide) (by decide) (by decide)).2.2.2.2.1

/-! ## C4: half-filled records -/

/-- C4 fails on the code: after the Student label, the surname `"Ivanov"` and the back
label, the record is `{surname: "Ivanov", group: ""}` in mode `default`, and the next
Student label is answered with the summary of that record, whose group is the placeholder
written at step 0. The contacts flow does the same with the e-mail. -/
theorem C4_partial_record_shown :
    (runTexts freshState
        [(envNoKey, remoteDown, LABEL_STUDENT), (envNoKey, remoteDown, "Ivanov"),
         (envNoKey, remoteDown, LABEL_BACK)]).mode = Mode.default ∧
    (runTexts freshState
        [(envNoKey, remoteDown, LABEL_STUDENT), (envNoKey, remoteDown, "Ivanov"),
         (envNoKey, remoteDown, LABEL_BACK)]).student
      = some { surname := "Ivanov", group := "" } ∧
    (handleText envNoKey remoteDown
        (runTexts freshState
          [(envNoKey, remoteDown, LABEL_STUDENT), (envNoKey, remoteDown, "Ivanov"),
           (envNoKey, remoteDown, LABEL_BACK)])
        LABEL_STUDENT).replies
      = [{ text := formatStudentData { surname := "Ivanov", group := "" },
           keyboard := some Keyboard.mainMenu }] ∧
    (handleText envNoKey remoteDown
        (runTexts freshState
          [(envNoKey, remoteDown, LABEL_CONTACTS), (envNoKey, remoteDown, "+380501234567"),
           (envNoKey, remoteDown, LABEL_BACK)])
        LABEL_CONTACTS).replies
      = [{ text := formatContactsData { phone := "+380501234567", email := "" },
           keyboard := some Keyboard.mainMenu }] := by
  decide

/-! ## Invariants of one handler run -/

theorem handleText_history_inv (env : Env) (remote : Remote) (state : UserState) (raw : String)
    (h : state.mode ≠ Mode.chatgpt → state.chatHistory = []) :
    (handleText env remote state raw).state.mode ≠ Mode.chatgpt →
      (handleText env remote state raw).state.chatHistory = [] := by
  obtain ⟨mode, step, student, it, contacts, chatHistory⟩ := state
  by_cases h1 : jsTrim raw = LABEL_BACK
  · cases mode <;> simp_all [handleText]
  by_cases h2 : jsTrim raw = LABEL_STUDENT
  · cases mode <;> cases student <;> simp_all [handleText]
  by_cases h3 : jsTrim raw = LABEL_IT
  · cases mode <;> cases it <;> simp_all [handleText]
  by_cases h4 : jsTrim raw = LABEL_CONTACTS
  · cases mode <;> cases contacts <;> simp_all [handleText]
  by_cases h5 : jsTrim raw = LABEL_GPT
  · cases mode <;> simp_all [handleText] <;> split <;> simp_all
  cases mode <;> simp only [handleText, h1, h2, h3, h4, h5, if_false] <;> simp
  all_goals first
    | (simp_all; done)
    | (split_ifs <;> (try split) <;> simp_all)
    | (split <;> simp_all)

theorem handleText_enters_chat (env : Env) (remote : Remote) (state : UserState) (raw : String)
    (hafter : (handleText env remote state raw).state.mode = Mode.chatgpt)
    (h : state.mode ≠ Mode.chatgpt ∨ jsTrim raw = LABEL_GPT) :
    (handleText env remote state raw).state.chatHistory = [] := by
  obtain ⟨mode, step, student, it, contacts, chatHistory⟩ := state
  revert hafter
  by_cases h1 : jsTrim raw = LABEL_BACK
  · cases mode <;> simp_all [handleText]
  by_cases h2 : jsTrim raw = LABEL_STUDENT
  · have : LABEL_STUDENT ≠ LABEL_GPT := by decide
    cases mode <;> cases student <;> simp_all [handleText]
  by_cases h3 : jsTrim raw = LABEL_IT
  · have : LABEL_IT ≠ LABEL_GPT := by decide
    cases mode <;> cases it <;> simp_all [handleText]
  by_cases h4 : jsTrim raw = LABEL_CONTACTS
  · have : LABEL_CONTACTS ≠ LABEL_GPT := by decide
    cases mode <;> cases contacts <;> simp_all [handleText]
  by_cases h5 : jsTrim raw = LABEL_GPT
  · cases mode <;> simp_all [handleText] <;> split <;> simp_all
  cases mode <;> simp only [handleText, h1, h2, h3, h4, h5, if_false] <;> simp
  all_goals first
    | (simp_all; done)
    | (split_ifs <;> (try split) <;> simp_all)

theorem runTexts_history_inv (state : UserState) (texts : List (Env × Remote × String))
    (h : state.mode ≠ Mode.chatgpt → state.chatHistory = []) :
    (runTexts state texts).mode ≠ Mode.chatgpt → (runTexts state texts).chatHistory = [] := by
  induction texts generalizing state with
  | nil => exact h
  | cons head rest ih =>
    obtain ⟨env, remote, messageText⟩ := head
    exact ih _ (handleText_history_inv env remote state messageText h)

/-! ## C5: history and mode transitions -/

/-- C5 fails on the code. In chat mode the question `q1` is sent and, while its completion
call is awaited (line 211), the back label is handled: it empties the history and sets mode
`default` (lines 95-101). When the call then settles with `a1`, lines 212-213 append to the
history as it is now, so the state has mode `default` and the history `[q1, a1]`; and if the
ChatPrompt label also came in between, the new chat session starts with the exchange of the
old one. Handled one after the other, the same texts leave the history empty. -/
theorem C5_history_survives :
    chatEntered.mode = Mode.chatgpt ∧
    (startText envWithKey (remoteFixed "a1") chatEntered "q1").1 = chatEntered ∧
    ((startText envWithKey (remoteFixed "a1") chatEntered "q1").2.map fun p => p.text)
      = some "q1" ∧
    ReachableWith historyLeaked [] ∧
    historyLeaked.mode = Mode.default ∧
    historyLeaked.chatHistory
      = [{ role := Role.user, content := "q1" }, { role := Role.assistant, content := "a1" }] ∧
    ReachableWith staleInNewChat [] ∧
    staleInNewChat.mode = Mode.chatgpt ∧
    staleInNewChat.chatHistory
      = [{ role := Role.user, content := "q1" }, { role := Role.assistant, content := "a1" }] ∧
    (runTexts freshState
        [(envWithKey, remoteFixed "a1", LABEL_GPT), (envWithKey, remoteFixed "a1", "q1"),
         (envWithKey, remoteFixed "a1", LABEL_BACK)]).chatHistory = [] := by
  have h1 : ReachableWith chatEntered [] :=
    ReachableWith.start envWithKey (remoteFixed "a1") LABEL_GPT ReachableWith.fresh
  have h2 : ReachableWith chatEntered [questionPending] :=
    ReachableWith.start envWithKey (remoteFixed "a1") "q1" h1
  have h3 : ReachableWith backWhilePending [questionPending] :=
    ReachableWith.start envWithKey (remoteFixed "a1") LABEL_BACK h2
  have h4 : ReachableWith historyLeaked [] :=
    ReachableWith.finish [] questionPending [] h3 rfl
  have h5 : ReachableWith
      (startText envWithKey (remoteFixed "a1") backWhilePending LABEL_GPT).1
      [questionPending] :=
    ReachableWith.start envWithKey (remoteFixed "a1") LABEL_GPT h3
  have h6 : ReachableWith staleInNewChat [] :=
    ReachableWith.finish [] questionPending [] h5 rfl
  exact ⟨by decide, by decide, by decide, h4, by decide, by decide, h6, by decide, by decide,
    by decide⟩

/-! ## The chat branch -/

theorem jsSlice_neg_ten {α : Type} (xs : List α) :
    jsSlice xs (-10) = xs.drop (xs.length - min 10 xs.length) := by
  unfold jsSlice
  simp only []
  congr 1
  omega

theorem handleText_chat (env : Env) (remote : Remote) (state : UserState) (raw : String)
    (hl : ¬ isLabel (jsTrim raw)) (hm : state.mode = Mode.chatgpt) :
    handleText env remote state raw =
      match callOpenAIChat env remote
          ([systemMessage] ++ jsSlice state.chatHistory (-10)
            ++ [{ role := Role.user, content := jsTrim raw }]) with
      | Except.ok answer =>
        { state := { state with
                      chatHistory := state.chatHistory
                        ++ [{ role := Role.user, content := jsTrim raw }]
                        ++ [{ role := Role.assistant, content := answer }] },
          replies := [{ text := answer, keyboard := some Keyboard.backOnlyMenu }],
          requests := [[systemMessage] ++ jsSlice state.chatHistory (-10)
            ++ [{ role := Role.user, content := jsTrim raw }]],
          threw := false }
      | Except.error err =>
        { state := state,
          replies := [{ text := "Помилка: " ++ errorText err,
                        keyboard := some Keyboard.backOnlyMenu }],
          requests := [[systemMessage] ++ jsSlice state.chatHistory (-10)
            ++ [{ role := Role.user, content := jsTrim raw }]],
          threw := false } := by
  simp only [isLabel, not_or] at hl
  obtain ⟨h1, h2, h3, h4, h5⟩ := hl
  unfold handleText
  simp [h1, h2, h3, h4, h5, hm]

theorem callOpenAIChat_error_iff (env : Env) (remote : Remote) (messages : List ChatMessage)
    (err : Thrown) :
    callOpenAIChat env remote messages = Except.error err ↔
      (openai env = none ∧ err = notConfigured) ∨
      ∃ client, openai env = some client ∧
        remote client { model := OPENROUTER_MODEL env, messages := messages }
          = RemoteResult.rejected err := by
  unfold callOpenAIChat
  cases hc : openai env with
  | none => simp [eq_comm]
  | some client =>
    cases hr : remote client { model := OPENROUTER_MODEL env, messages := messages } <;>
      simp [hr, eq_comm]

/-! ## Suspended runs -/

theorem startText_state (env : Env) (remote : Remote) (state : UserState) (raw : String) :
    (startText env remote state raw).1 = state ∨
      (startText env remote state raw).1 = (handleText env remote state raw).state := by
  unfold startText
  split
  · exact Or.inl rfl
  · exact Or.inr rfl

theorem finishText_state (state : UserState) (p : Pending) :
    (finishText state p).state = state ∨
      ∃ answer, (finishText state p).state
        = { state with
              chatHistory := state.chatHistory
                ++ [{ role := Role.user, content := p.text }]
                ++ [{ role := Role.assistant, content := answer }] } := by
  unfold finishText
  split
  · exact Or.inr ⟨_, rfl⟩
  · exact Or.inl rfl

/-- A run that no other run interrupts is `handleText`: started and, when it was left
pending, resumed at once. -/
theorem handleText_start_finish (env : Env) (remote : Remote) (state : UserState)
    (raw : String) :
    (handleText env remote state raw).state =
      match (startText env remote state raw).2 with
      | none => (startText env remote state raw).1
      | some p => (finishText (startText env remote state raw).1 p).state := by
  by_cases hc : state.mode = Mode.chatgpt ∧ ¬ isLabel (jsTrim raw)
  · rw [handleText_chat env remote state raw hc.2 hc.1]
    simp only [startText, if_pos hc, finishText]
    split <;> rename_i heq <;> simp [heq]
  · simp only [startText, if_neg hc]

theorem Reachable.fresh : Reachable freshState := ⟨[], ReachableWith.fresh⟩

theorem Reachable.step {state : UserState} (env : Env) (remote : Remote)
    (messageText : String) (h : Reachable state) :
    Reachable (handleText env remote state messageText).state := by
  obtain ⟨pending, hp⟩ := h
  have hs := ReachableWith.start env remote messageText hp
  rw [handleText_start_finish]
  cases hq : (startText env remote state messageText).2 with
  | none => exact ⟨_, hs⟩
  | some p =>
    rw [hq] at hs
    exact ⟨_, ReachableWith.finish pending p [] hs rfl⟩

theorem reachable_runTexts (state : UserState) (texts : List (Env × Remote × String))
    (h : Reachable state) : Reachable (runTexts state texts) := by
  induction texts generalizing state with
  | nil => exact h
  | cons head rest ih =>
    obtain ⟨env, remote, messageText⟩ := head
    exact ih _ (Reachable.step env remote messageText h)

/-! ## C6: the completion request -/

/-- C6: for every chat-mode state with history `h` and every message whose text `t` is not
a label, exactly one message list is passed to the completion call, and it is the system
message, then the last `min 10 |h|` entries of `h` in order, then `{role: user, content: t}`;
that part of `h` has at most 10 entries whatever the length of `h`. -/
theorem C6_completion_request (env : Env) (remote : Remote) (state : UserState)
    (raw t : String) (hm : state.mode = Mode.chatgpt) (ht : jsTrim raw = t)
    (hl : ¬ isLabel t) :
    (handleText env remote state raw).requests
      = [[systemMessage]
          ++ state.chatHistory.drop
              (state.chatHistory.length - min 10 state.chatHistory.length)
          ++ [{ role := Role.user, content := t }]] ∧
    (state.chatHistory.drop
        (state.chatHistory.length - min 10 state.chatHistory.length)).length
      = min 10 state.chatHistory.length ∧
    state.chatHistory.take (state.chatHistory.length - min 10 state.chatHistory.length)
        ++ state.chatHistory.drop (state.chatHistory.length - min 10 state.chatHistory.length)
      = state.chatHistory ∧
    (state.chatHistory.drop
        (state.chatHistory.length - min 10 state.chatHistory.length)).length ≤ 10 := by
  subst ht
  refine ⟨?_, ?_, List.take_append_drop _ _, ?_⟩
  · rw [handleText_chat env remote state raw hl hm, jsSlice_neg_ten]
    split <;> rfl
  · rw [List.length_drop]; omega
  · rw [List.length_drop]; omega

/-- C6 after six answered questions: the history has 12 entries and the seventh request
carries the system message, the last 10 of them and the new user message. -/
theorem C6_completion_request_witness :
    chatAfterSix.chatHistory.length = 12 ∧
    (handleText envWithKey (remoteFixed "a7") chatAfterSix "q7").requests
      = [[systemMessage]
          ++ chatAfterSix.chatHistory.drop
              (chatAfterSix.chatHistory.length - min 10 chatAfterSix.chatHistory.length)
          ++ [{ role := Role.user, content := "q7" }]] ∧
    chatAfterSix.chatHistory.drop
        (chatAfterSix.chatHistory.length - min 10 chatAfterSix.chatHistory.length)
      = [{ role := Role.user, content := "q2" }, { role := Role.assistant, content := "a2" },
         { role := Role.user, content := "q3" }, { role := Role.assistant, content := "a3" },
         { role := Role.user, content := "q4" }, { role := Role.assistant, content := "a4" },
         { role := Role.user, content := "q5" }, { role := Role.assistant, content := "a5" },
         { role := Role.user, content := "q6" }, { role := Role.assistant, content := "a6" }] :=
  ⟨by decide,
   (C6_completion_request envWithKey (remoteFixed "a7") chatAfterSix "q7" "q7"
      (by decide) (by decide) (by decide)).1,
   by decide⟩

/-! ## C7: a failed completion -/

/-- C7: for every chat-mode state and every message whose text is not a label, if the
completion call fails (no client configured, or the remote call rejected) then the state
after handling is the state before, and exactly one reply is emitted: `Помилка: ` followed
by the reason text of the failure (its message, or the generic text of line 219 when it
has none), under the BackOnly keyboard. -/
theorem C7_failed_completion (env : Env) (remote : Remote) (state : UserState)
    (raw t : String) (err : Thrown) (hm : state.mode = Mode.chatgpt) (ht : jsTrim raw = t)
    (hl : ¬ isLabel t)
    (hfail : callOpenAIChat env remote
        ([systemMessage] ++ jsSlice state.chatHistory (-10)
          ++ [{ role := Role.user, content := t }]) = Except.error err) :
    (handleText env remote state raw).state = state ∧
    (handleText env remote state raw).replies
      = [{ text := "Помилка: " ++ errorText err, keyboard := some Keyboard.backOnlyMenu }] ∧
    (∀ reason, err.message = some reason → reason ≠ "" →
      (handleText env remote state raw).replies
        = [{ text := "Помилка: " ++ reason, keyboard := some Keyboard.backOnlyMenu }]) ∧
    (handleText env remote state raw).threw = false := by
  subst ht
  rw [handleText_chat env remote state raw hl hm, hfail]
  refine ⟨rfl, rfl, ?_, rfl⟩
  intro reason hmsg hne
  simp [errorText, truthy, hmsg, hne]

/-- C7 without an API key: the chat state is unchanged and the reply carries the message
of the not-configured error. -/
theorem C7_failed_completion_witness :
    (handleText envNoKey remoteDown chatting " what? ").state = chatting ∧
    (handleText envNoKey remoteDown chatting " what? ").replies
      = [{ text := "Помилка: OPENAI_API_KEY не налаштований. Додайте ключ у файл .env",
           keyboard := some Keyboard.backOnlyMenu }] :=
  ⟨(C7_failed_completion envNoKey remoteDown chatting " what? " "what?" notConfigured
      (by decide) (by decide) (by decide) rfl).1,
   (C7_failed_completion envNoKey remoteDown chatting " what? " "what?" notConfigured
      (by decide) (by decide) (by decide) rfl).2.2.1 _ rfl (by decide)⟩

/-! ## C8: a successful completion -/

/-- C8: for every chat-mode state with history `h`, every message whose text `t` is not a
label and every successful completion result `a`: the history afterwards is
`h ++ [{role: user, content: t}, {role: assistant, content: a}]`, two entries longer and
not truncated, every other field of the state is unchanged, and exactly one reply is
emitted: `a` under the BackOnly keyboard. -/
theorem C8_successful_completion (env : Env) (remote : Remote) (state : UserState)
    (raw t a : String) (hm : state.mode = Mode.chatgpt) (ht : jsTrim raw = t)
    (hl : ¬ isLabel t)
    (hok : callOpenAIChat env remote
        ([systemMessage] ++ jsSlice state.chatHistory (-10)
          ++ [{ role := Role.user, content := t }]) = Except.ok a) :
    (handleText env remote state raw).state
      = { state with
            chatHistory := state.chatHistory
              ++ [{ role := Role.user, content := t }, { role := Role.assistant, content := a }] } ∧
    (handleText env remote state raw).state.chatHistory.length
      = state.chatHistory.length + 2 ∧
    (handleText env remote state raw).replies
      = [{ text := a, keyboard := some Keyboard.backOnlyMenu }] ∧
    (handleText env remote state raw).threw = false := by
  subst ht
  rw [handleText_chat env remote state raw hl hm, hok]
  refine ⟨?_, ?_, rfl, rfl⟩
  · simp
  · simp

/-- C8 on a chat state with one earlier exchange and the answer `"ok"`. -/
theorem C8_successful_completion_witness :
    (handleText envWithKey (remoteFixed "ok") chatting "what?").state.chatHistory
      = [{ role := Role.user, content := "hi" }, { role := Role.assistant, content := "hello" },
         { role := Role.user, content := "what?" }, { role := Role.assistant, content := "ok" }] :=
  congrArg UserState.chatHistory
    (C8_successful_completion envWithKey (remoteFixed "ok") chatting "what?" "what?" "ok"
      (by decide) (by decide) (by decide) rfl).1

/-! ## C9: the store -/

theorem getOrCreateUserState_absent (m : Store) (userId : Nat) (h : m userId = none) :
    getOrCreateUserState m userId = (freshState, m.set userId freshState) := by
  simp [getOrCreateUserState, h]

theorem getOrCreateUserState_present (m : Store) (userId : Nat) (state : UserState)
    (h : m userId = some state) : getOrCreateUserState m userId = (state, m) := by
  simp [getOrCreateUserState, h]

theorem getOrCreateUserState_stored (m : Store) (userId : Nat) :
    (getOrCreateUserState m userId).2 userId = some (getOrCreateUserState m userId).1 := by
  cases h : m userId with
  | none => simp [getOrCreateUserState, h, Store.set]
  | some state => simp [getOrCreateUserState, h]

theorem getOrCreateUserState_others (m : Store) (userId k : Nat) (hk : k ≠ userId) :
    (getOrCreateUserState m userId).2 k = m k := by
  cases h : m userId with
  | none => simp [getOrCreateUserState, h, Store.set, hk]
  | some state => simp [getOrCreateUserState, h]

/-- C9: for every store and user id: if the id is absent, `getOrCreateUserState` returns a
state with mode `default`, step 0, no student, it or contacts record and an empty history,
and stores it under that id; if the id is present it returns the record already stored and
leaves the store as it is, so that a second call returns the same record and what the
handler writes to a returned record is what a later call returns; every other id keeps
its entry, and no id loses its record. -/
theorem C9_get_or_create (m : Store) (userId : Nat) :
    (m userId = none →
      (getOrCreateUserState m userId).1
        = { mode := Mode.default, step := 0, student := none, it := none, contacts := none,
            chatHistory := [] } ∧
      (getOrCreateUserState m userId).2 userId = some (getOrCreateUserState m userId).1) ∧
    (∀ state, m userId = some state → getOrCreateUserState m userId = (state, m)) ∧
    getOrCreateUserState (getOrCreateUserState m userId).2 userId
      = ((getOrCreateUserState m userId).1, (getOrCreateUserState m userId).2) ∧
    (∀ (env : Env) (remote : Remote) (messageText : String),
      (getOrCreateUserState (onText env remote m userId messageText).2 userId).1
        = (onText env remote m userId messageText).1.state) ∧
    (∀ k, k ≠ userId → (getOrCreateUserState m userId).2 k = m k) ∧
    (∀ k, (m k).isSome → ((getOrCreateUserState m userId).2 k).isSome) := by
  refine ⟨fun h => ⟨?_, getOrCreateUserState_stored m userId⟩,
    getOrCreateUserState_present m userId,
    getOrCreateUserState_present _ userId _ (getOrCreateUserState_stored m userId),
    ?_, fun k hk => getOrCreateUserState_others m userId k hk, ?_⟩
  · rw [getOrCreateUserState_absent m userId h]
    rfl
  · intro env remote messageText
    have hset : (onText env remote m userId messageText).2 userId
        = some (onText env remote m userId messageText).1.state := by
      simp [onText, Store.set]
    rw [getOrCreateUserState_present _ userId _ hset]
  · intro k hk
    by_cases hku : k = userId
    · subst hku
      rw [getOrCreateUserState_stored]
      rfl
    · rw [getOrCreateUserState_others m userId k hku]
      exact hk

/-- C9 on a store that holds user 7: user 8 gets a fresh record, user 7 the stored one. -/
theorem C9_get_or_create_witness :
    (getOrCreateUserState oneUserStore 8).1 = freshState ∧
    getOrCreateUserState oneUserStore 7 = (awaitingGroup, oneUserStore) :=
  ⟨((C9_get_or_create oneUserStore 8).1 rfl).1,
   (C9_get_or_create oneUserStore 7).2.1 awaitingGroup rfl⟩

/-! ## C10: step and mode -/

/-- C10: for every state, reachable or not, every inbound text and every completion
outcome: if the mode after handling differs from the mode before, the step after handling
is 0. -/
theorem C10_step_reset (env : Env) (remote : Remote) (state : UserState) (raw : String)
    (h : (handleText env remote state raw).state.mode ≠ state.mode) :
    (handleText env remote state raw).state.step = 0 := by
  obtain ⟨mode, step, student, it, contacts, chatHistory⟩ := state
  revert h
  by_cases h1 : jsTrim raw = LABEL_BACK
  · cases mode <;> simp_all [handleText]
  by_cases h2 : jsTrim raw = LABEL_STUDENT
  · cases mode <;> cases student <;> simp_all [handleText]
  by_cases h3 : jsTrim raw = LABEL_IT
  · cases mode <;> cases it <;> simp_all [handleText]
  by_cases h4 : jsTrim raw = LABEL_CONTACTS
  · cases mode <;> cases contacts <;> simp_all [handleText]
  by_cases h5 : jsTrim raw = LABEL_GPT
  · cases mode <;> simp_all [handleText] <;> split <;> simp_all
  cases mode <;> simp only [handleText, h1, h2, h3, h4, h5, if_false] <;> simp
  all_goals first
    | (simp_all; done)
    | (split_ifs <;> (try split) <;> simp_all)
    | (split <;> simp_all)

/-- C10 at the second step of the student collection: the group text moves the mode from
`collect_student` to `default` and the step from 1 to 0. -/
theorem C10_step_reset_witness :
    (handleText envNoKey remoteDown awaitingGroup "CS-101").state.mode ≠ awaitingGroup.mode ∧
    awaitingGroup.step = 1 ∧
    (handleText envNoKey remoteDown awaitingGroup "CS-101").state.step = 0 :=
  ⟨by decide, rfl, C10_step_reset envNoKey remoteDown awaitingGroup "CS-101" (by decide)⟩

/-! ## The remaining branches of the handler -/

theorem handleText_it_label (env : Env) (remote : Remote) (state : UserState)
    (raw : String) (h : jsTrim raw = LABEL_IT) :
    handleText env remote state raw =
      match state.it with
      | some it =>
        { state := { state with
                      chatHistory := if state.mode = Mode.chatgpt then [] else state.chatHistory },
          replies := [{ text := formatItData it, keyboard := some Keyboard.mainMenu }],
          requests := [], threw := false }
      | none =>
        { state := { state with
                      chatHistory := if state.mode = Mode.chatgpt then [] else state.chatHistory,
                      mode := Mode.collect_it, step := 0 },
          replies := [{ text := "Вкажіть ваші IT-технології (через кому або довільний текст):",
                        keyboard := some Keyboard.backOnlyMenu }],
          requests := [], threw := false } := by
  have hne : LABEL_IT ≠ LABEL_BACK := by decide
  have hne2 : LABEL_IT ≠ LABEL_STUDENT := by decide
  obtain ⟨mode, step, student, it, contacts, chatHistory⟩ := state
  cases it <;> by_cases hm : mode = Mode.chatgpt <;> simp [handleText, h, hne, hne2, hm]

theorem handleText_contacts_label (env : Env) (remote : Remote) (state : UserState)
    (raw : String) (h : jsTrim raw = LABEL_CONTACTS) :
    handleText env remote state raw =
      match state.contacts with
      | some contacts =>
        { state := { state with
                      chatHistory := if state.mode = Mode.chatgpt then [] else state.chatHistory },
          replies := [{ text := formatContactsData contacts,
                        keyboard := some Keyboard.mainMenu }],
          requests := [], threw := false }
      | none =>
        { state := { state with
                      chatHistory := if state.mode = Mode.chatgpt then [] else state.chatHistory,
                      mode := Mode.collect_contacts, step := 0 },
          replies := [{ text := "Введіть номер телефону:",
                        keyboard := some Keyboard.backOnlyMenu }],
          requests := [], threw := false } := by
  have hne : LABEL_CONTACTS ≠ LABEL_BACK := by decide
  have hne2 : LABEL_CONTACTS ≠ LABEL_STUDENT := by decide
  have hne3 : LABEL_CONTACTS ≠ LABEL_IT := by decide
  obtain ⟨mode, step, student, it, contacts, chatHistory⟩ := state
  cases contacts <;> by_cases hm : mode = Mode.chatgpt <;>
    simp [handleText, h, hne, hne2, hne3, hm]

theorem handleText_gpt_label (env : Env) (remote : Remote) (state : UserState)
    (raw : String) (h : jsTrim raw = LABEL_GPT) :
    handleText env remote state raw =
      { state := { state with chatHistory := [], mode := Mode.chatgpt, step := 0 },
        replies := [{ text := if (openai env).isNone
                        then "Режим ChatGPT: не вказано OPENAI_API_KEY у .env. Додайте ключ і перезапустіть бота."
                        else "Режим ChatGPT активовано. Напишіть ваш запит або натисніть «🔙 До меню».",
                      keyboard := some Keyboard.backOnlyMenu }],
        requests := [], threw := false } := by
  have hne : LABEL_GPT ≠ LABEL_BACK := by decide
  have hne2 : LABEL_GPT ≠ LABEL_STUDENT := by decide
  have hne3 : LABEL_GPT ≠ LABEL_IT := by decide
  have hne4 : LABEL_GPT ≠ LABEL_CONTACTS := by decide
  unfold handleText
  simp only [h, hne, hne2, hne3, hne4, if_false, if_true]
  split <;> rfl

theorem handleText_it_text (env : Env) (remote : Remote) (state : UserState)
    (raw : String) (hl : ¬ isLabel (jsTrim raw)) (hm : state.mode = Mode.collect_it) :
    handleText env remote state raw =
      { state := { state with it := some { technologies := jsTrim raw },
                              mode := Mode.default, step := 0 },
        replies := [{ text := "Дякую! Зберіг ваші IT-технології.", keyboard := none },
                    showMainMenu (some (formatItData { technologies := jsTrim raw }))],
        requests := [], threw := false } := by
  simp only [isLabel, not_or] at hl
  obtain ⟨h1, h2, h3, h4, h5⟩ := hl
  unfold handleText
  simp [h1, h2, h3, h4, h5, hm]

theorem handleText_out_of_range (env : Env) (remote : Remote) (state : UserState)
    (raw : String) (hl : ¬ isLabel (jsTrim raw))
    (hm : state.mode = Mode.collect_student ∨ state.mode = Mode.collect_contacts)
    (h0 : state.step ≠ 0) (h1 : state.step ≠ 1) :
    handleText env remote state raw =
      { state := state,
        replies := [showMainMenu (some "Будь ласка, оберіть пункт меню на клавіатурі нижче.")],
        requests := [], threw := false } := by
  simp only [isLabel, not_or] at hl
  obtain ⟨l1, l2, l3, l4, l5⟩ := hl
  unfold handleText
  rcases hm with hm | hm <;> simp [l1, l2, l3, l4, l5, hm, h0, h1]

theorem onText_other (env : Env) (remote : Remote) (m : Store) (u v : Nat) (raw : String)
    (h : v ≠ u) : (onText env remote m u raw).2 v = m v := by
  cases hu : m u with
  | none => simp [onText, getOrCreateUserState, hu, Store.set, h]
  | some state => simp [onText, getOrCreateUserState, hu, Store.set, h]

/-! ## C11: the ChatPrompt label -/

/-- C11: for every state, handling the ChatPrompt label sets mode `chatgpt` and step 0 and
empties `chatHistory` whatever the mode was, leaves the three records unchanged, and emits
exactly one reply under BackOnly: the configuration-error message when no completion
client is configured (the mode is `chatgpt` all the same), otherwise the activation
message. -/
theorem C11_chat_prompt (env : Env) (remote : Remote) (state : UserState) :
    (handleText env remote state LABEL_GPT).state.mode = Mode.chatgpt ∧
    (handleText env remote state LABEL_GPT).state.step = 0 ∧
    (handleText env remote state LABEL_GPT).state.chatHistory = [] ∧
    (handleText env remote state LABEL_GPT).state.student = state.student ∧
    (handleText env remote state LABEL_GPT).state.it = state.it ∧
    (handleText env remote state LABEL_GPT).state.contacts = state.contacts ∧
    (handleText env remote state LABEL_GPT).replies
      = [{ text := if openai env = none
             then "Режим ChatGPT: не вказано OPENAI_API_KEY у .env. Додайте ключ і перезапустіть бота."
             else "Режим ChatGPT активовано. Напишіть ваш запит або натисніть «🔙 До меню».",
           keyboard := some Keyboard.backOnlyMenu }] ∧
    (handleText env remote state LABEL_GPT).requests = [] ∧
    (handleText env remote state LABEL_GPT).threw = false := by
  rw [handleText_gpt_label env remote state LABEL_GPT jsTrim_LABEL_GPT]
  refine ⟨rfl, rfl, rfl, rfl, rfl, rfl, ?_, rfl, rfl⟩
  cases openai env <;> rfl

/-! ## C12: the IT collection -/

/-- C12: for every state whose mode is `collect_it`, whatever its step, and every message
whose text `t` is not a label: handling it stores `it = {technologies: t}`, resets mode to
`default` and step to 0, leaves `student`, `contacts` and `chatHistory` unchanged, and
emits an acknowledgement followed by a MainMenu reply whose text is `formatItData` of the
stored record. -/
theorem C12_it_collection (env : Env) (remote : Remote) (state : UserState) (raw t : String)
    (hm : state.mode = Mode.collect_it) (ht : jsTrim raw = t) (hl : ¬ isLabel t) :
    (handleText env remote state raw).state
      = { state with it := some { technologies := t }, mode := Mode.default, step := 0 } ∧
    (handleText env remote state raw).replies
      = [{ text := "Дякую! Зберіг ваші IT-технології.", keyboard := none },
         { text := formatItData { technologies := t }, keyboard := some Keyboard.mainMenu }] ∧
    (handleText env remote state raw).requests = [] ∧
    (handleText env remote state raw).threw = false := by
  subst ht
  rw [handleText_it_text env remote state raw hl hm]
  exact ⟨rfl, rfl, rfl, rfl⟩

/-- C12 on a state in `collect_it` with step 3 and the other two records filled. -/
theorem C12_it_collection_witness :
    collectingIt.step = 3 ∧
    (handleText envNoKey remoteDown collectingIt "Lean, JS").state
      = { collectingIt with
            it := some { technologies := "Lean, JS" }, mode := Mode.default, step := 0 } :=
  ⟨rfl, (C12_it_collection envNoKey remoteDown collectingIt "Lean, JS" "Lean, JS"
    rfl (by decide) (by decide)).1⟩

/-! ## C14: a step outside the handled range -/

/-- C14, as stated, fails: in mode `collect_student` with step 2 the text `"hello"`, which
is no label, is answered with one reply, the fallback prompt under MainMenu. -/
theorem C14_counterexample :
    stuckStudent.mode = Mode.collect_student ∧ stuckStudent.step ≠ 0 ∧ stuckStudent.step ≠ 1 ∧
    ¬ isLabel (jsTrim "hello") ∧
    (handleText envNoKey remoteDown stuckStudent "hello").replies
      = [{ text := "Будь ласка, оберіть пункт меню на клавіатурі нижче.",
           keyboard := some Keyboard.mainMenu }] ∧
    (handleText envNoKey remoteDown stuckStudent "hello").replies ≠ [] := by
  decide

/-- C14, amended: if the mode is `collect_student` or `collect_contacts` and the step is
neither 0 nor 1, then for every message whose text is not a label the handler emits
exactly one reply, the fallback prompt of lines 225-228 under MainMenu, and does not
change the state. -/
theorem C14_out_of_range_step (env : Env) (remote : Remote) (state : UserState)
    (raw : String) (hl : ¬ isLabel (jsTrim raw))
    (hm : state.mode = Mode.collect_student ∨ state.mode = Mode.collect_contacts)
    (h0 : state.step ≠ 0) (h1 : state.step ≠ 1) :
    (handleText env remote state raw).replies
      = [{ text := "Будь ласка, оберіть пункт меню на клавіатурі нижче.",
           keyboard := some Keyboard.mainMenu }] ∧
    (handleText env remote state raw).state = state ∧
    (handleText env remote state raw).requests = [] ∧
    (handleText env remote state raw).threw = false := by
  rw [handleText_out_of_range env remote state raw hl hm h0 h1]
  exact ⟨rfl, rfl, rfl, rfl⟩

/-- C14, amended, in mode `collect_contacts` with step 5. -/
theorem C14_out_of_range_step_witness :
    (handleText envNoKey remoteDown stuckContacts "a@b.c").replies
      = [{ text := "Будь ласка, оберіть пункт меню на клавіатурі нижче.",
           keyboard := some Keyboard.mainMenu }] ∧
    (handleText envNoKey remoteDown stuckContacts "a@b.c").state = stuckContacts :=
  ⟨(C14_out_of_range_step envNoKey remoteDown stuckContacts "a@b.c" (by decide)
      (Or.inr rfl) (by decide) (by decide)).1,
   (C14_out_of_range_step envNoKey remoteDown stuckContacts "a@b.c" (by decide)
      (Or.inr rfl) (by decide) (by decide)).2.1⟩

/-! ## C13: the answer of the completion call -/

theorem jsTrim_empty : jsTrim "" = "" := by decide

theorem answerOf_none : answerOf none = noAnswer := by decide

theorem answerOf_some (content : String) :
    answerOf (some content) = if jsTrim content = "" then noAnswer else jsTrim content := by
  by_cases hc : content = ""
  · subst hc
    decide
  · by_cases ht : jsTrim content = "" <;> simp [answerOf, truthy, hc, ht, noAnswer]

theorem callOpenAIChat_resolved (env : Env) (remote : Remote) (client : OpenAI)
    (messages : List ChatMessage) (completion : Completion) (hc : openai env = some client)
    (hr : remote client { model := OPENROUTER_MODEL env, messages := messages }
      = RemoteResult.resolved completion) :
    callOpenAIChat env remote messages = Except.ok (answerOf (firstContent completion)) := by
  simp [callOpenAIChat, hc, hr]

/-- C13, as stated, fails on a content that is white space only: `"   "` is neither absent
nor the empty string, yet the call returns the fallback text and not the trimmed content,
which is the empty string. -/
theorem C13_counterexample :
    firstContent { choices := some [{ message := some { content := some "   " } }] }
      = some "   " ∧
    ("   " : String) ≠ "" ∧
    callOpenAIChat envWithKey (remoteFixed "   ") [] = Except.ok "Немає відповіді." ∧
    jsTrim "   " = "" ∧
    ("Немає відповіді." : String) ≠ jsTrim "   " :=
  ⟨rfl, by decide, rfl, by decide, by decide⟩

/-- C13, amended: for every completion response returned by the remote service,
`callOpenAIChat` returns the fallback string `Немає відповіді.` if the content of the first
choice's message is absent, or is empty once its leading and trailing white space is
trimmed (the empty string included); otherwise it returns the trimmed content. -/
theorem C13_completion_answer (env : Env) (remote : Remote) (client : OpenAI)
    (messages : List ChatMessage) (completion : Completion) (hc : openai env = some client)
    (hr : remote client { model := OPENROUTER_MODEL env, messages := messages }
      = RemoteResult.resolved completion) :
    (firstContent completion = none →
      callOpenAIChat env remote messages = Except.ok "Немає відповіді.") ∧
    (∀ content, firstContent completion = some content → jsTrim content = "" →
      callOpenAIChat env remote messages = Except.ok "Немає відповіді.") ∧
    (∀ content, firstContent completion = some content → jsTrim content ≠ "" →
      callOpenAIChat env remote messages = Except.ok (jsTrim content)) := by
  rw [callOpenAIChat_resolved env remote client messages completion hc hr]
  refine ⟨fun h => ?_, fun content h ht => ?_, fun content h ht => ?_⟩
  · rw [h, answerOf_none]; rfl
  · rw [h, answerOf_some, if_pos ht]; rfl
  · rw [h, answerOf_some, if_neg ht]

/-- C13, amended, on the answer `"  ok \n"`: the call returns `"ok"`. -/
theorem C13_completion_answer_witness :
    callOpenAIChat envWithKey (remoteFixed "  ok \n") [] = Except.ok (jsTrim "  ok \n") ∧
    jsTrim "  ok \n" = "ok" :=
  ⟨(C13_completion_answer envWithKey (remoteFixed "  ok \n")
      { baseURL := "https://openrouter.ai/api/v1", apiKey := "sk-test" } []
      { choices := some [{ message := some { content := some "  ok \n" } }] } rfl rfl).2.2
      "  ok \n" rfl (by decide),
   by decide⟩

/-! ## C15: no credential -/

theorem callOpenAIChatTraced_fst (env : Env) (remote : Remote) (messages : List ChatMessage) :
    (callOpenAIChatTraced env remote messages).1 = callOpenAIChat env remote messages := by
  unfold callOpenAIChatTraced callOpenAIChat
  cases openai env with
  | none => rfl
  | some client =>
    cases hr : remote client { model := OPENROUTER_MODEL env, messages := messages } <;>
      simp [hr]

/-- C15: when no API credential is configured (the client is `null`), `callOpenAIChat`
fails for every message list with the not-configured error, whatever the remote service
would answer, and no request reaches the remote service. -/
theorem C15_not_configured (env : Env) (h : openai env = none) (remote : Remote)
    (messages : List ChatMessage) :
    callOpenAIChat env remote messages = Except.error notConfigured ∧
    notConfigured.message = some "OPENAI_API_KEY не налаштований. Додайте ключ у файл .env" ∧
    (∀ other : Remote,
      callOpenAIChat env other messages = callOpenAIChat env remote messages) ∧
    (callOpenAIChatTraced env remote messages).1 = callOpenAIChat env remote messages ∧
    (callOpenAIChatTraced env remote messages).2 = [] := by
  refine ⟨by simp [callOpenAIChat, h], rfl, fun other => by simp [callOpenAIChat, h],
    callOpenAIChatTraced_fst env remote messages, by simp [callOpenAIChatTraced, h]⟩

/-- C15 without the environment variable, and with it set to the empty string, against a
remote service that would have answered. -/
theorem C15_not_configured_witness :
    openai envNoKey = none ∧
    openai { OPENROUTER_API_KEY := some "", OPENROUTER_MODEL := none } = none ∧
    callOpenAIChat envNoKey (remoteFixed "ok") [systemMessage] = Except.error notConfigured ∧
    (callOpenAIChatTraced envNoKey (remoteFixed "ok") [systemMessage]).2 = [] ∧
    (callOpenAIChatTraced envWithKey (remoteFixed "ok") [systemMessage]).2
      = [{ model := "gpt-4o-mini", messages := [systemMessage] }] :=
  ⟨rfl, rfl, (C15_not_configured envNoKey rfl (remoteFixed "ok") [systemMessage]).1,
   (C15_not_configured envNoKey rfl (remoteFixed "ok") [systemMessage]).2.2.2.2, rfl⟩

/-! ## C16: the three data labels -/

/-- C16: for every state in which the record of a selected menu label (Student, IT or
Contacts) exists, handling that label emits exactly one reply, the summary of the record
under MainMenu, and leaves mode, step and the three records unchanged whatever the mode
is; `chatHistory` is emptied if the mode was `chatgpt` and unchanged otherwise. When the
record does not exist, the mode becomes the matching collecting mode with step 0 and one
first-field prompt is emitted under BackOnly (the records stay as they are and the history
is treated in the same way). -/
theorem C16_menu_selection (env : Env) (remote : Remote) (state : UserState) :
    (∀ student, state.student = some student →
      handleText env remote state LABEL_STUDENT =
        { state := { state with
            chatHistory := if state.mode = Mode.chatgpt then [] else state.chatHistory },
          replies := [{ text := formatStudentData student, keyboard := some Keyboard.mainMenu }],
          requests := [], threw := false }) ∧
    (state.student = none →
      handleText env remote state LABEL_STUDENT =
        { state := { state with
            chatHistory := if state.mode = Mode.chatgpt then [] else state.chatHistory,
            mode := Mode.collect_student, step := 0 },
          replies := [{ text := "Введіть, будь ласка, ваше прізвище:",
                        keyboard := some Keyboard.backOnlyMenu }],
          requests := [], threw := false }) ∧
    (∀ it, state.it = some it →
      handleText env remote state LABEL_IT =
        { state := { state with
            chatHistory := if state.mode = Mode.chatgpt then [] else state.chatHistory },
          replies := [{ text := formatItData it, keyboard := some Keyboard.mainMenu }],
          requests := [], threw := false }) ∧
    (state.it = none →
      handleText env remote state LABEL_IT =
        { state := { state with
            chatHistory := if state.mode = Mode.chatgpt then [] else state.chatHistory,
            mode := Mode.collect_it, step := 0 },
          replies := [{ text := "Вкажіть ваші IT-технології (через кому або довільний текст):",
                        keyboard := some Keyboard.backOnlyMenu }],
          requests := [], threw := false }) ∧
    (∀ contacts, state.contacts = some contacts →
      handleText env remote state LABEL_CONTACTS =
        { state := { state with
            chatHistory := if state.mode = Mode.chatgpt then [] else state.chatHistory },
          replies := [{ text := formatContactsData contacts,
                        keyboard := some Keyboard.mainMenu }],
          requests := [], threw := false }) ∧
    (state.contacts = none →
      handleText env remote state LABEL_CONTACTS =
        { state := { state with
            chatHistory := if state.mode = Mode.chatgpt then [] else state.chatHistory,
            mode := Mode.collect_contacts, step := 0 },
          replies := [{ text := "Введіть номер телефону:",
                        keyboard := some Keyboard.backOnlyMenu }],
          requests := [], threw := false }) := by
  refine ⟨fun student h => ?_, fun h => ?_, fun it h => ?_, fun h => ?_,
    fun contacts h => ?_, fun h => ?_⟩
  · rw [handleText_student_label env remote state LABEL_STUDENT jsTrim_LABEL_STUDENT, h]
  · rw [handleText_student_label env remote state LABEL_STUDENT jsTrim_LABEL_STUDENT, h]
  · rw [handleText_it_label env remote state LABEL_IT jsTrim_LABEL_IT, h]
  · rw [handleText_it_label env remote state LABEL_IT jsTrim_LABEL_IT, h]
  · rw [handleText_contacts_label env remote state LABEL_CONTACTS jsTrim_LABEL_CONTACTS, h]
  · rw [handleText_contacts_label env remote state LABEL_CONTACTS jsTrim_LABEL_CONTACTS, h]

/-- C16 in chat mode with a student record and no contacts record: the Student label shows
the summary, keeps mode `chatgpt` and empties the history; the Contacts label enters the
contacts collection. -/
theorem C16_menu_selection_witness :
    handleText envWithKey (remoteFixed "ok") chattingStudent LABEL_STUDENT =
      { state := { chattingStudent with chatHistory := [] },
        replies := [{ text := formatStudentData { surname := "Shevchenko", group := "CS-101" },
                      keyboard := some Keyboard.mainMenu }],
        requests := [], threw := false } ∧
    (handleText envWithKey (remoteFixed "ok") chattingStudent LABEL_CONTACTS).state.mode
      = Mode.collect_contacts :=
  ⟨(C16_menu_selection envWithKey (remoteFixed "ok") chattingStudent).1
      { surname := "Shevchenko", group := "CS-101" } rfl,
   congrArg (fun r => r.state.mode)
     ((C16_menu_selection envWithKey (remoteFixed "ok") chattingStudent).2.2.2.2.2 rfl)⟩

/-! ## C20: one user does not touch another -/

/-- C20: for every store, every two distinct user ids `u` and `v`, every text and every
completion outcome, handling an inbound text from `u` leaves the entry of `v` exactly as it
was, a record unchanged and a missing record missing; hence an entry that differs after
the run is the one of `u`, which holds the state the handler produced. -/
theorem C20_user_isolation (env : Env) (remote : Remote) (m : Store) (u v : Nat)
    (raw : String) (h : u ≠ v) :
    (onText env remote m u raw).2 v = m v ∧
    (∀ k, (onText env remote m u raw).2 k ≠ m k → k = u) ∧
    (onText env remote m u raw).2 u = some (onText env remote m u raw).1.state := by
  refine ⟨onText_other env remote m u v raw (Ne.symm h), fun k hk => ?_, ?_⟩
  · by_contra hku
    exact hk (onText_other env remote m u k raw hku)
  · simp [onText, Store.set]

/-- C20 on a store that holds user 7: a text from user 8 leaves the record of user 7 as it
was and creates no entry for user 9. -/
theorem C20_user_isolation_witness :
    (onText envNoKey remoteDown oneUserStore 8 LABEL_STUDENT).2 7 = some awaitingGroup ∧
    (onText envNoKey remoteDown oneUserStore 8 LABEL_STUDENT).2 9 = none ∧
    (onText envNoKey remoteDown oneUserStore 8 LABEL_STUDENT).2 8 = some collectingStudent :=
  ⟨(C20_user_isolation envNoKey remoteDown oneUserStore 8 7 LABEL_STUDENT (by decide)).1,
   (C20_user_isolation envNoKey remoteDown oneUserStore 8 9 LABEL_STUDENT (by decide)).1,
   by decide⟩

/-! ## Case analysis over the handler -/

theorem handleText_student_step1_null (env : Env) (remote : Remote) (state : UserState)
    (raw : String) (hl : ¬ isLabel (jsTrim raw))
    (hm : state.mode = Mode.collect_student) (hs : state.step = 1)
    (hst : state.student = none) :
    handleText env remote state raw =
      { state := state, replies := [], requests := [], threw := true } := by
  simp only [isLabel, not_or] at hl
  obtain ⟨h1, h2, h3, h4, h5⟩ := hl
  unfold handleText
  simp [h1, h2, h3, h4, h5, hm, hs, hst]

theorem handleText_contacts_step0 (env : Env) (remote : Remote) (state : UserState)
    (raw : String) (hl : ¬ isLabel (jsTrim raw)) (hm : state.mode = Mode.collect_contacts)
    (hs : state.step = 0) :
    handleText env remote state raw =
      { state := { state with contacts := some { phone := jsTrim raw, email := "" }, step := 1 },
        replies := [{ text := "Введіть ваш e-mail:", keyboard := some Keyboard.backOnlyMenu }],
        requests := [], threw := false } := by
  simp only [isLabel, not_or] at hl
  obtain ⟨h1, h2, h3, h4, h5⟩ := hl
  unfold handleText
  simp [h1, h2, h3, h4, h5, hm, hs]

theorem handleText_contacts_step1 (env : Env) (remote : Remote) (state : UserState)
    (raw : String) (contacts : Contacts) (hl : ¬ isLabel (jsTrim raw))
    (hm : state.mode = Mode.collect_contacts) (hs : state.step = 1)
    (hc : state.contacts = some contacts) :
    handleText env remote state raw =
      { state := { state with contacts := some { contacts with email := jsTrim raw },
                              mode := Mode.default, step := 0 },
        replies := [{ text := "Дякую! Зберіг ваші контакти.", keyboard := none },
                    showMainMenu
                      (some (formatContactsData { contacts with email := jsTrim raw }))],
        requests := [], threw := false } := by
  simp only [isLabel, not_or] at hl
  obtain ⟨h1, h2, h3, h4, h5⟩ := hl
  unfold handleText
  simp [h1, h2, h3, h4, h5, hm, hs, hc]

theorem handleText_contacts_step1_null (env : Env) (remote : Remote) (state : UserState)
    (raw : String) (hl : ¬ isLabel (jsTrim raw))
    (hm : state.mode = Mode.collect_contacts) (hs : state.step = 1)
    (hc : state.contacts = none) :
    handleText env remote state raw =
      { state := state, replies := [], requests := [], threw := true } := by
  simp only [isLabel, not_or] at hl
  obtain ⟨h1, h2, h3, h4, h5⟩ := hl
  unfold handleText
  simp [h1, h2, h3, h4, h5, hm, hs, hc]

theorem handleText_default (env : Env) (remote : Remote) (state : UserState)
    (raw : String) (hl : ¬ isLabel (jsTrim raw)) (hm : state.mode = Mode.default) :
    handleText env remote state raw =
      { state := state,
        replies := [showMainMenu (some "Будь ласка, оберіть пункт меню на клавіатурі нижче.")],
        requests := [], threw := false } := by
  simp only [isLabel, not_or] at hl
  obtain ⟨h1, h2, h3, h4, h5⟩ := hl
  unfold handleText
  simp [h1, h2, h3, h4, h5, hm]

/-- Case analysis over the branches of the handler: a property of a run holds as soon as
it holds of what each branch produces under the conditions that select the branch. -/
theorem handleText_elim (env : Env) (remote : Remote) (state : UserState) (raw : String)
    (P : Handled → Prop)
    (back : jsTrim raw = LABEL_BACK →
      P { state := { state with
                      chatHistory := if state.mode = Mode.chatgpt then [] else state.chatHistory,
                      mode := Mode.default, step := 0 },
          replies := [showMainMenu none], requests := [], threw := false })
    (shown : ∀ reply, jsTrim raw = LABEL_STUDENT ∧ state.student ≠ none ∨
        jsTrim raw = LABEL_IT ∧ state.it ≠ none ∨
        jsTrim raw = LABEL_CONTACTS ∧ state.contacts ≠ none →
      P { state := { state with
                      chatHistory := if state.mode = Mode.chatgpt then [] else state.chatHistory },
          replies := [reply], requests := [], threw := false })
    (entered : ∀ mode reply,
        jsTrim raw = LABEL_STUDENT ∧ state.student = none ∧ mode = Mode.collect_student ∨
        jsTrim raw = LABEL_IT ∧ state.it = none ∧ mode = Mode.collect_it ∨
        jsTrim raw = LABEL_CONTACTS ∧ state.contacts = none ∧ mode = Mode.collect_contacts →
      P { state := { state with
                      chatHistory := if state.mode = Mode.chatgpt then [] else state.chatHistory,
                      mode := mode, step := 0 },
          replies := [reply], requests := [], threw := false })
    (gpt : ∀ reply, jsTrim raw = LABEL_GPT →
      P { state := { state with chatHistory := [], mode := Mode.chatgpt, step := 0 },
          replies := [reply], requests := [], threw := false })
    (student0 : ∀ reply, ¬ isLabel (jsTrim raw) → state.mode = Mode.collect_student →
      state.step = 0 →
      P { state := { state with
                      student := some { surname := jsTrim raw, group := "" }, step := 1 },
          replies := [reply], requests := [], threw := false })
    (student1 : ∀ student replies, ¬ isLabel (jsTrim raw) →
      state.mode = Mode.collect_student → state.step = 1 → state.student = some student →
      P { state := { state with student := some { student with group := jsTrim raw },
                                mode := Mode.default, step := 0 },
          replies := replies, requests := [], threw := false })
    (it : ∀ replies, ¬ isLabel (jsTrim raw) → state.mode = Mode.collect_it →
      P { state := { state with it := some { technologies := jsTrim raw },
                                mode := Mode.default, step := 0 },
          replies := replies, requests := [], threw := false })
    (contacts0 : ∀ reply, ¬ isLabel (jsTrim raw) → state.mode = Mode.collect_contacts →
      state.step = 0 →
      P { state := { state with
                      contacts := some { phone := jsTrim raw, email := "" }, step := 1 },
          replies := [reply], requests := [], threw := false })
    (contacts1 : ∀ contacts replies, ¬ isLabel (jsTrim raw) →
      state.mode = Mode.collect_contacts → state.step = 1 → state.contacts = some contacts →
      P { state := { state with contacts := some { contacts with email := jsTrim raw },
                                mode := Mode.default, step := 0 },
          replies := replies, requests := [], threw := false })
    (null : ¬ isLabel (jsTrim raw) → state.step = 1 →
      state.mode = Mode.collect_student ∧ state.student = none ∨
        state.mode = Mode.collect_contacts ∧ state.contacts = none →
      P { state := state, replies := [], requests := [], threw := true })
    (answered : ∀ answer requests, ¬ isLabel (jsTrim raw) → state.mode = Mode.chatgpt →
      P { state := { state with
                      chatHistory := state.chatHistory
                        ++ [{ role := Role.user, content := jsTrim raw }]
                        ++ [{ role := Role.assistant, content := answer }] },
          replies := [{ text := answer, keyboard := some Keyboard.backOnlyMenu }],
          requests := requests, threw := false })
    (kept : ∀ replies requests, ¬ isLabel (jsTrim raw) →
      state.mode = Mode.chatgpt ∨ state.mode = Mode.default ∨
        (state.mode = Mode.collect_student ∨ state.mode = Mode.collect_contacts) ∧
          state.step ≠ 0 ∧ state.step ≠ 1 →
      P { state := state, replies := replies, requests := requests, threw := false }) :
    P (handleText env remote state raw) := by
  obtain ⟨mode, step, student, its, contacts, chatHistory⟩ := state
  by_cases h1 : jsTrim raw = LABEL_BACK
  · rw [handleText_back env remote _ raw h1]; exact back h1
  by_cases h2 : jsTrim raw = LABEL_STUDENT
  · rw [handleText_student_label env remote _ raw h2]
    cases student with
    | none => exact entered _ _ (Or.inl ⟨h2, rfl, rfl⟩)
    | some st => exact shown _ (Or.inl ⟨h2, by simp⟩)
  by_cases h3 : jsTrim raw = LABEL_IT
  · rw [handleText_it_label env remote _ raw h3]
    cases its with
    | none => exact entered _ _ (Or.inr (Or.inl ⟨h3, rfl, rfl⟩))
    | some st => exact shown _ (Or.inr (Or.inl ⟨h3, by simp⟩))
  by_cases h4 : jsTrim raw = LABEL_CONTACTS
  · rw [handleText_contacts_label env remote _ raw h4]
    cases contacts with
    | none => exact entered _ _ (Or.inr (Or.inr ⟨h4, rfl, rfl⟩))
    | some st => exact shown _ (Or.inr (Or.inr ⟨h4, by simp⟩))
  by_cases h5 : jsTrim raw = LABEL_GPT
  · rw [handleText_gpt_label env remote _ raw h5]; exact gpt _ h5
  have hl : ¬ isLabel (jsTrim raw) := by
    simp only [isLabel, not_or]; exact ⟨h1, h2, h3, h4, h5⟩
  cases mode with
  | default =>
    rw [handleText_default env remote _ raw hl rfl]
    exact kept _ _ hl (Or.inr (Or.inl rfl))
  | collect_student =>
    by_cases hs0 : step = 0
    · rw [handleText_student_step0 env remote _ raw hl rfl hs0]
      exact student0 _ hl rfl hs0
    by_cases hs1 : step = 1
    · cases student with
      | none =>
        rw [handleText_student_step1_null env remote _ raw hl rfl hs1 rfl]
        exact null hl hs1 (Or.inl ⟨rfl, rfl⟩)
      | some st =>
        rw [handleText_student_step1 env remote _ raw st hl rfl hs1 rfl]
        exact student1 st _ hl rfl hs1 rfl
    · rw [handleText_out_of_range env remote _ raw hl (Or.inl rfl) hs0 hs1]
      exact kept _ _ hl (Or.inr (Or.inr ⟨Or.inl rfl, hs0, hs1⟩))
  | collect_it =>
    rw [handleText_it_text env remote _ raw hl rfl]
    exact it _ hl rfl
  | collect_contacts =>
    by_cases hs0 : step = 0
    · rw [handleText_contacts_step0 env remote _ raw hl rfl hs0]
      exact contacts0 _ hl rfl hs0
    by_cases hs1 : step = 1
    · cases contacts with
      | none =>
        rw [handleText_contacts_step1_null env remote _ raw hl rfl hs1 rfl]
        exact null hl hs1 (Or.inr ⟨rfl, rfl⟩)
      | some st =>
        rw [handleText_contacts_step1 env remote _ raw st hl rfl hs1 rfl]
        exact contacts1 st _ hl rfl hs1 rfl
    · rw [handleText_out_of_range env remote _ raw hl (Or.inr rfl) hs0 hs1]
      exact kept _ _ hl (Or.inr (Or.inr ⟨Or.inr rfl, hs0, hs1⟩))
  | chatgpt =>
    rw [handleText_chat env remote _ raw hl rfl]
    split
    · exact answered _ _ hl rfl
    · exact kept _ _ hl (Or.inl rfl)

/-! ## Invariants of the reachable states -/

theorem handleText_consistent (env : Env) (remote : Remote) (state : UserState) (raw : String)
    (h : Consistent state) : Consistent (handleText env remote state raw).state := by
  obtain ⟨mode, step, student, its, contacts, chatHistory⟩ := state
  unfold Consistent at h
  obtain ⟨c1, c2, c3, c4, c5, c6, c7⟩ := h
  apply handleText_elim env remote _ raw (fun r => Consistent r.state) <;>
    simp only [Consistent] <;> intros <;> simp_all
  rename_i hsel
  rcases hsel with ⟨-, h, rfl⟩ | ⟨-, h, rfl⟩ | ⟨-, h, rfl⟩ <;> simp [h]

theorem handleText_no_throw (env : Env) (remote : Remote) (state : UserState) (raw : String)
    (h : Consistent state) : (handleText env remote state raw).threw = false := by
  obtain ⟨mode, step, student, its, contacts, chatHistory⟩ := state
  unfold Consistent at h
  obtain ⟨c1, c2, c3, c4, c5, c6, c7⟩ := h
  apply handleText_elim env remote _ raw (fun r => r.threw = false)
  case null =>
    intro _ hs1 hsel
    rcases hsel with ⟨hm, hn⟩ | ⟨hm, hn⟩
    · have h3 := c3 hm hs1
      simp_all
    · have h4 := c4 hm hs1
      simp_all
  all_goals intros; rfl

theorem handleText_writeOnce (env : Env) (remote : Remote) (state : UserState) (raw : String)
    (h : Consistent state) : WriteOnce state (handleText env remote state raw).state := by
  obtain ⟨mode, step, student, its, contacts, chatHistory⟩ := state
  unfold Consistent at h
  obtain ⟨c1, c2, c3, c4, c5, c6, c7⟩ := h
  apply handleText_elim env remote _ raw
      (fun r => WriteOnce
        { mode := mode, step := step, student := student, it := its, contacts := contacts,
          chatHistory := chatHistory } r.state) <;>
    simp only [WriteOnce, StudentKept, ItKept, ContactsKept] <;> intros <;> simp_all

theorem handleText_student_change (env : Env) (remote : Remote) (state : UserState)
    (raw : String) (h : Consistent state) (a b : Student) (ha : state.student = some a)
    (hb : (handleText env remote state raw).state.student = some b) (hne : b ≠ a) :
    state.mode = Mode.collect_student ∧ state.step = 1 ∧ a.group = "" ∧
      b = { a with group := jsTrim raw } := by
  obtain ⟨mode, step, student, its, contacts, chatHistory⟩ := state
  unfold Consistent at h
  obtain ⟨c1, c2, c3, c4, c5, c6, c7⟩ := h
  revert hb
  apply handleText_elim env remote _ raw
      (fun r => r.state.student = some b → mode = Mode.collect_student ∧ step = 1 ∧
        a.group = "" ∧ b = { a with group := jsTrim raw }) <;> intros <;> simp_all

theorem handleText_contacts_change (env : Env) (remote : Remote) (state : UserState)
    (raw : String) (h : Consistent state) (a b : Contacts) (ha : state.contacts = some a)
    (hb : (handleText env remote state raw).state.contacts = some b) (hne : b ≠ a) :
    state.mode = Mode.collect_contacts ∧ state.step = 1 ∧ a.email = "" ∧
      b = { a with email := jsTrim raw } := by
  obtain ⟨mode, step, student, its, contacts, chatHistory⟩ := state
  unfold Consistent at h
  obtain ⟨c1, c2, c3, c4, c5, c6, c7⟩ := h
  revert hb
  apply handleText_elim env remote _ raw
      (fun r => r.state.contacts = some b → mode = Mode.collect_contacts ∧ step = 1 ∧
        a.email = "" ∧ b = { a with email := jsTrim raw }) <;> intros <;> simp_all

theorem alternating_nil : AlternatingRoles [] := by
  intro i m h
  simp at h

theorem alternating_append_pair (history : List ChatMessage) (text answer : String)
    (hlen : history.length % 2 = 0) (h : AlternatingRoles history) :
    AlternatingRoles
      (history ++ [{ role := Role.user, content := text }]
        ++ [{ role := Role.assistant, content := answer }]) := by
  intro i m hi
  rw [List.append_assoc] at hi
  by_cases hlt : i < history.length
  · rw [List.getElem?_append_left hlt] at hi
    exact h i m hi
  · rw [List.getElem?_append_right (by omega)] at hi
    obtain ⟨k, hk⟩ : ∃ k, i = history.length + k := ⟨i - history.length, by omega⟩
    subst hk
    simp only [Nat.add_sub_cancel_left] at hi
    match k, hi with
    | 0, hi =>
      simp at hi
      subst hi
      simp [hlen]
    | 1, hi =>
      simp at hi
      subst hi
      have : (history.length + 1) % 2 ≠ 0 := by omega
      simp [this]
    | k + 2, hi => simp at hi

theorem handleText_history_paired (env : Env) (remote : Remote) (state : UserState)
    (raw : String)
    (h : state.chatHistory.length % 2 = 0 ∧ AlternatingRoles state.chatHistory) :
    (handleText env remote state raw).state.chatHistory.length % 2 = 0 ∧
      AlternatingRoles (handleText env remote state raw).state.chatHistory := by
  obtain ⟨hlen, halt⟩ := h
  apply handleText_elim env remote state raw
      (fun r => r.state.chatHistory.length % 2 = 0 ∧ AlternatingRoles r.state.chatHistory)
  case back => intro _; dsimp only; split <;> [exact ⟨rfl, alternating_nil⟩; exact ⟨hlen, halt⟩]
  case shown =>
    intro _ _; dsimp only; split <;> [exact ⟨rfl, alternating_nil⟩; exact ⟨hlen, halt⟩]
  case entered =>
    intro _ _ _; dsimp only; split <;> [exact ⟨rfl, alternating_nil⟩; exact ⟨hlen, halt⟩]
  case gpt => intro _ _; exact ⟨rfl, alternating_nil⟩
  case answered =>
    intro answer _ _ _
    refine ⟨?_, alternating_append_pair _ _ _ hlen halt⟩
    simp only [List.length_append, List.length_singleton]
    omega
  all_goals intros; exact ⟨hlen, halt⟩

theorem consistent_fresh : Consistent freshState := by
  simp [Consistent, freshState]

theorem finishText_consistent (state : UserState) (p : Pending) (h : Consistent state) :
    Consistent (finishText state p).state := by
  rcases finishText_state state p with hs | ⟨answer, hs⟩
  · rw [hs]; exact h
  · rw [hs]; exact h

theorem reachableWith_consistent (state : UserState) (pending : List Pending)
    (h : ReachableWith state pending) : Consistent state := by
  induction h with
  | fresh => exact consistent_fresh
  | start env remote messageText _ ih =>
    rcases startText_state env remote _ messageText with hs | hs
    · rw [hs]; exact ih
    · rw [hs]; exact handleText_consistent env remote _ messageText ih
  | finish before p after _ _ ih => exact finishText_consistent _ p ih

theorem reachable_consistent (state : UserState) (h : Reachable state) : Consistent state := by
  obtain ⟨pending, hp⟩ := h
  exact reachableWith_consistent state pending hp

theorem runTexts_consistent (state : UserState) (texts : List (Env × Remote × String))
    (h : Consistent state) : Consistent (runTexts state texts) := by
  induction texts generalizing state with
  | nil => exact h
  | cons head rest ih =>
    obtain ⟨env, remote, messageText⟩ := head
    exact ih _ (handleText_consistent env remote state messageText h)

theorem writeOnce_refl (state : UserState) : WriteOnce state state :=
  ⟨fun a h => ⟨a, h, rfl, Or.inl rfl⟩, fun _ h => h, fun a h => ⟨a, h, rfl, Or.inl rfl⟩⟩

theorem writeOnce_trans (s₁ s₂ s₃ : UserState) (h₁ : WriteOnce s₁ s₂) (h₂ : WriteOnce s₂ s₃) :
    WriteOnce s₁ s₃ := by
  obtain ⟨a₁, b₁, c₁⟩ := h₁
  obtain ⟨a₂, b₂, c₂⟩ := h₂
  refine ⟨fun a ha => ?_, fun a ha => b₂ a (b₁ a ha), fun a ha => ?_⟩
  · obtain ⟨b, hb, hs, hg⟩ := a₁ a ha
    obtain ⟨c, hc, hs', hg'⟩ := a₂ b hb
    refine ⟨c, hc, hs'.trans hs, ?_⟩
    rcases hg with hg | hg
    · rcases hg' with hg' | hg'
      · exact Or.inl (hg'.trans hg)
      · exact Or.inr (hg ▸ hg')
    · exact Or.inr hg
  · obtain ⟨b, hb, hs, hg⟩ := c₁ a ha
    obtain ⟨c, hc, hs', hg'⟩ := c₂ b hb
    refine ⟨c, hc, hs'.trans hs, ?_⟩
    rcases hg with hg | hg
    · rcases hg' with hg' | hg'
      · exact Or.inl (hg'.trans hg)
      · exact Or.inr (hg ▸ hg')
    · exact Or.inr hg

theorem runTexts_writeOnce (state : UserState) (texts : List (Env × Remote × String))
    (h : Consistent state) : WriteOnce state (runTexts state texts) := by
  induction texts generalizing state with
  | nil => exact writeOnce_refl state
  | cons head rest ih =>
    obtain ⟨env, remote, messageText⟩ := head
    exact writeOnce_trans _ _ _ (handleText_writeOnce env remote state messageText h)
      (ih _ (handleText_consistent env remote state messageText h))

theorem finishText_history_paired (state : UserState) (p : Pending)
    (h : state.chatHistory.length % 2 = 0 ∧ AlternatingRoles state.chatHistory) :
    (finishText state p).state.chatHistory.length % 2 = 0 ∧
      AlternatingRoles (finishText state p).state.chatHistory := by
  rcases finishText_state state p with hs | ⟨answer, hs⟩
  · rw [hs]; exact h
  · rw [hs]
    refine ⟨?_, alternating_append_pair _ _ _ h.1 h.2⟩
    simp only [List.length_append, List.length_singleton]
    omega

theorem reachableWith_history_paired (state : UserState) (pending : List Pending)
    (h : ReachableWith state pending) :
    state.chatHistory.length % 2 = 0 ∧ AlternatingRoles state.chatHistory := by
  induction h with
  | fresh => exact ⟨rfl, alternating_nil⟩
  | start env remote messageText _ ih =>
    rcases startText_state env remote _ messageText with hs | hs
    · rw [hs]; exact ih
    · rw [hs]; exact handleText_history_paired env remote _ messageText ih
  | finish before p after _ _ ih => exact finishText_history_paired _ p ih

theorem reachable_history_paired (state : UserState) (h : Reachable state) :
    state.chatHistory.length % 2 = 0 ∧ AlternatingRoles state.chatHistory := by
  obtain ⟨pending, hp⟩ := h
  exact reachableWith_history_paired state pending hp

theorem slice_ends (history : List ChatMessage) (hlen : history.length % 2 = 0)
    (halt : AlternatingRoles history) (hne : jsSlice history (-10) ≠ []) :
    ∃ first last, (jsSlice history (-10)).head? = some first ∧ first.role = Role.user ∧
      (jsSlice history (-10)).getLast? = some last ∧ last.role = Role.assistant := by
  rw [jsSlice_neg_ten] at hne ⊢
  have hk : history.length - min 10 history.length < history.length := by
    by_contra hge
    exact hne (List.drop_eq_nil_of_le (by omega))
  have hpos : 0 < history.length := by omega
  refine ⟨history[history.length - min 10 history.length], history[history.length - 1],
    ?_, ?_, ?_, ?_⟩
  · rw [List.head?_drop, List.getElem?_eq_getElem hk]
  · have h := halt (history.length - min 10 history.length) _ (List.getElem?_eq_getElem hk)
    rw [h, if_pos (by omega)]
  · rw [List.getLast?_drop, if_neg (by omega), List.getLast?_eq_getElem?,
      List.getElem?_eq_getElem (by omega)]
  · have h := halt (history.length - 1) _ (List.getElem?_eq_getElem (by omega))
    rw [h, if_neg (by omega)]

/-! ## C17: the step cursor -/

/-- C17: in every state reachable from a freshly created state by any inbound texts and
completion outcomes, the step is 0 or 1; it is 1 only when the mode is `collect_student` or
`collect_contacts`; and in `collect_student` (resp. `collect_contacts`) with step 1 the
student (resp. contacts) record is not null. Hence no run of the handler from such a state
ends by writing a field on `null`, and the mode is never a two-field collection with a step
outside 0 and 1. -/
theorem C17_step_invariant (state : UserState) (h : Reachable state) :
    (state.step = 0 ∨ state.step = 1) ∧
    (state.step = 1 →
      state.mode = Mode.collect_student ∨ state.mode = Mode.collect_contacts) ∧
    (state.mode = Mode.collect_student → state.step = 1 → state.student ≠ none) ∧
    (state.mode = Mode.collect_contacts → state.step = 1 → state.contacts ≠ none) ∧
    (∀ (env : Env) (remote : Remote) (raw : String),
      (handleText env remote state raw).threw = false) ∧
    ¬ ((state.mode = Mode.collect_student ∨ state.mode = Mode.collect_contacts) ∧
        state.step ≠ 0 ∧ state.step ≠ 1) := by
  have hc := reachable_consistent state h
  obtain ⟨c1, c2, c3, c4, -, -, -⟩ := hc
  refine ⟨c1, c2, fun hm hs hn => ?_, fun hm hs hn => ?_,
    fun env remote raw => handleText_no_throw env remote state raw (reachable_consistent state h),
    fun hout => ?_⟩
  · have h3 := c3 hm hs
    rw [hn] at h3
    exact absurd h3 (by simp)
  · have h4 := c4 hm hs
    rw [hn] at h4
    exact absurd h4 (by simp)
  · rcases c1 with h0 | h1
    · exact hout.2.1 h0
    · exact hout.2.2 h1

/-- C17 on the state after the Student label and a surname: step 1 in `collect_student`,
with a student record. -/
theorem C17_step_invariant_witness :
    Reachable afterSurname ∧ afterSurname.mode = Mode.collect_student ∧
    afterSurname.step = 1 ∧ afterSurname.student ≠ none ∧
    (handleText envNoKey remoteDown afterSurname "CS-101").threw = false :=
  ⟨reachable_runTexts freshState _ Reachable.fresh, by decide, by decide,
   (C17_step_invariant afterSurname (reachable_runTexts freshState _ Reachable.fresh)).2.2.1
     (by decide) (by decide),
   (C17_step_invariant afterSurname (reachable_runTexts freshState _ Reachable.fresh)).2.2.2.2.1
     envNoKey remoteDown "CS-101"⟩

/-! ## C18: stored data is write-once -/

/-- C18: along every sequence of inbound texts from a reachable state, a record that is not
null stays not null and keeps its first field (surname, technologies, phone); its second
field (group, e-mail) is the old one unless the old one was the empty placeholder, and once
it has changed it does not change again; a step that changes it is step 1 of the
collection, which writes the text of the message. This rests on the invariant that a
collecting mode with step 0 has no record of its kind yet. -/
theorem C18_write_once (state : UserState) (h : Reachable state)
    (texts₁ texts₂ : List (Env × Remote × String)) :
    (∀ a, state.student = some a →
      ∃ b, (runTexts state texts₁).student = some b ∧ b.surname = a.surname ∧
        (b.group = a.group ∨ a.group = "")) ∧
    (∀ a, state.it = some a → (runTexts state texts₁).it = some a) ∧
    (∀ a, state.contacts = some a →
      ∃ b, (runTexts state texts₁).contacts = some b ∧ b.phone = a.phone ∧
        (b.email = a.email ∨ a.email = "")) ∧
    (∀ a b c, state.student = some a → (runTexts state texts₁).student = some b →
      (runTexts (runTexts state texts₁) texts₂).student = some c →
      b.group ≠ a.group → c.group = b.group) ∧
    (∀ a b c, state.contacts = some a → (runTexts state texts₁).contacts = some b →
      (runTexts (runTexts state texts₁) texts₂).contacts = some c →
      b.email ≠ a.email → c.email = b.email) ∧
    (∀ (env : Env) (remote : Remote) (raw : String) (a b : Student),
      state.student = some a → (handleText env remote state raw).state.student = some b →
      b ≠ a →
      state.mode = Mode.collect_student ∧ state.step = 1 ∧ a.group = "" ∧
        b = { a with group := jsTrim raw }) ∧
    (∀ (env : Env) (remote : Remote) (raw : String) (a b : Contacts),
      state.contacts = some a → (handleText env remote state raw).state.contacts = some b →
      b ≠ a →
      state.mode = Mode.collect_contacts ∧ state.step = 1 ∧ a.email = "" ∧
        b = { a with email := jsTrim raw }) ∧
    (state.mode = Mode.collect_student → state.step = 0 → state.student = none) ∧
    (state.mode = Mode.collect_it → state.step = 0 → state.it = none) ∧
    (state.mode = Mode.collect_contacts → state.step = 0 → state.contacts = none) := by
  have hc := reachable_consistent state h
  have hc₁ := runTexts_consistent state texts₁ hc
  obtain ⟨ks, ki, kc⟩ := runTexts_writeOnce state texts₁ hc
  obtain ⟨ks', -, kc'⟩ := runTexts_writeOnce (runTexts state texts₁) texts₂ hc₁
  refine ⟨ks, ki, kc, ?_, ?_,
    fun env remote raw a b ha hb hne =>
      handleText_student_change env remote state raw hc a b ha hb hne,
    fun env remote raw a b ha hb hne =>
      handleText_contacts_change env remote state raw hc a b ha hb hne,
    hc.2.2.2.2.1, fun hm _ => hc.2.2.2.2.2.2 hm, hc.2.2.2.2.2.1⟩
  · intro a b c ha hb hcc hne
    obtain ⟨b', hb', -, hg⟩ := ks a ha
    obtain ⟨c', hc', -, hg'⟩ := ks' b hb
    rw [hb] at hb'
    rw [hcc] at hc'
    cases hb'
    cases hc'
    rcases hg with hg | hg
    · exact absurd hg hne
    · rcases hg' with hg' | hg'
      · exact hg'
      · exact absurd (hg'.trans hg.symm) hne
  · intro a b c ha hb hcc hne
    obtain ⟨b', hb', -, hg⟩ := kc a ha
    obtain ⟨c', hc', -, hg'⟩ := kc' b hb
    rw [hb] at hb'
    rw [hcc] at hc'
    cases hb'
    cases hc'
    rcases hg with hg | hg
    · exact absurd hg hne
    · rcases hg' with hg' | hg'
      · exact hg'
      · exact absurd (hg'.trans hg.symm) hne

/-- C18 on the state after the Student label and a surname: whatever follows, here a group,
the back label, the Student label and one more text, the surname stays `"Ivanov"`. -/
theorem C18_write_once_witness :
    Reachable afterSurname ∧
    afterSurname.student = some { surname := "Ivanov", group := "" } ∧
    (runTexts afterSurname
        [(envNoKey, remoteDown, "CS-101"), (envNoKey, remoteDown, LABEL_BACK),
         (envNoKey, remoteDown, LABEL_STUDENT), (envNoKey, remoteDown, "Petrenko")]).student
      = some { surname := "Ivanov", group := "CS-101" } ∧
    ∃ b, (runTexts afterSurname
        [(envNoKey, remoteDown, "CS-101"), (envNoKey, remoteDown, LABEL_BACK),
         (envNoKey, remoteDown, LABEL_STUDENT), (envNoKey, remoteDown, "Petrenko")]).student
      = some b ∧ b.surname = "Ivanov" ∧ (b.group = "" ∨ ("" : String) = "") :=
  ⟨reachable_runTexts freshState _ Reachable.fresh, by decide, by decide,
   (C18_write_once afterSurname (reachable_runTexts freshState _ Reachable.fresh)
      [(envNoKey, remoteDown, "CS-101"), (envNoKey, remoteDown, LABEL_BACK),
       (envNoKey, remoteDown, LABEL_STUDENT), (envNoKey, remoteDown, "Petrenko")] []).1
      { surname := "Ivanov", group := "" } (by decide)⟩

/-! ## C19: the shape of the history -/

/-- C19: in every reachable state `chatHistory` has even length and its roles alternate from
`user` (even indices `user`, odd indices `assistant`, never `system`); so the tail
`slice(-10)` sent to the completion call, when it is not empty, begins with a `user` entry
and ends with an `assistant` entry. -/
theorem C19_history_alternates (state : UserState) (h : Reachable state) :
    state.chatHistory.length % 2 = 0 ∧
    (∀ i m, state.chatHistory[i]? = some m →
      m.role = if i % 2 = 0 then Role.user else Role.assistant) ∧
    (∀ m, m ∈ state.chatHistory → m.role ≠ Role.system) ∧
    (jsSlice state.chatHistory (-10) ≠ [] →
      ∃ first last, (jsSlice state.chatHistory (-10)).head? = some first ∧
        first.role = Role.user ∧
        (jsSlice state.chatHistory (-10)).getLast? = some last ∧
        last.role = Role.assistant) := by
  obtain ⟨hlen, halt⟩ := reachable_history_paired state h
  refine ⟨hlen, halt, fun m hm => ?_, slice_ends state.chatHistory hlen halt⟩
  obtain ⟨i, hi⟩ := List.mem_iff_getElem?.mp hm
  rw [halt i m hi]
  split <;> simp

/-- C19 after six answered questions: 12 entries, and the tail of 10 starts with the user
entry `q2` and ends with the assistant entry `a6`. -/
theorem C19_history_alternates_witness :
    Reachable chatAfterSix ∧ chatAfterSix.chatHistory.length = 12 ∧
    chatAfterSix.chatHistory.length % 2 = 0 ∧
    (jsSlice chatAfterSix.chatHistory (-10)).head?
      = some { role := Role.user, content := "q2" } ∧
    (jsSlice chatAfterSix.chatHistory (-10)).getLast?
      = some { role := Role.assistant, content := "a6" } :=
  ⟨reachable_runTexts freshState _ Reachable.fresh, by decide,
   (C19_history_alternates chatAfterSix (reachable_runTexts freshState _ Reachable.fresh)).1,
   by decide, by decide⟩

end Lab3Web
